import Mathlib

/-!
# sh-bot: presence aggregation and the debounce/cooldown scheduler

A shallow embedding of `main.go`.  The package-level variables become one
record `Globals`; every handler is a function on that record.  Clock readings
(`time.Now()`, `time.Since`) are passed in explicitly as integers counting
nanoseconds from Go's zero `time.Time`, so the zero value of a `time.Time`
variable is `0`.  Go maps are association lists read through `mapIndex`
(which yields the zero value `""` for an absent key, as `m[k]` does).
-/

namespace ShBot

/-! ## Data model -/

/-- A `discordgo.Status` is a string. -/
abbrev Status := String

/-- The constant `discordgo.StatusOffline`. -/
def StatusOffline : Status := "offline"

/-- The constant `discordgo.StatusOnline`. -/
def StatusOnline : Status := "online"

/-- A `map[string]discordgo.Status`: key/value pairs, the first pair of a key is the binding. -/
abbrev PresenceMap := List (String × Status)

/-- Go's `m[k]`: the stored value, or the zero value `""` when the key is absent. -/
def mapIndex (m : PresenceMap) (k : String) : Status :=
  match m.lookup k with
  | some v => v
  | none => ""

/-- Go's `_, exists := m[k]`. -/
def mapHas (m : PresenceMap) (k : String) : Bool :=
  (m.lookup k).isSome

/-- Go's `m[k] = v`: overwrite the binding of `k`, or add one. -/
def mapStore : PresenceMap → String → Status → PresenceMap
  | [], k, v => [(k, v)]
  | (k', v') :: rest, k, v =>
    if k' == k then (k, v) :: rest else (k', v') :: mapStore rest k v

/-- Go's `idsToTrack[id] = struct{}{}` on a `map[string]struct{}` kept as a list of keys. -/
def setAdd (s : List String) (id : String) : List String :=
  if id ∈ s then s else s ++ [id]

/-- One second as a `time.Duration` (nanoseconds). -/
def Second : Int := 1000000000

/-- The constant `DEBOUNCE_PERIOD = 5 * time.Second`. -/
def DEBOUNCE_PERIOD : Int := 5 * Second

/-- The package-level variables of `main.go`. -/
structure Globals where
  cooldownBtwnScripts : Int
  onlineScript : String
  offlineScript : String
  startOnline : Bool
  startOffline : Bool
  requireVc : Bool
  lastPresenceState : PresenceMap
  idsToTrack : List String
  voiceChannelId : String
  anyOnlineLastChange : Int
  anyOnline : Bool
  recievedAnyPresenceChange : Bool
  anyInVoiceChannel : Bool
  awaitingScriptFinish : Bool
  lastScriptRun : Int
  onlineScriptRan : Bool
  offlineScriptRan : Bool
  deriving DecidableEq, Repr

/-- The values the package-level variables have when the process starts. -/
def initGlobals : Globals where
  cooldownBtwnScripts := 30 * Second
  onlineScript := ""
  offlineScript := ""
  startOnline := false
  startOffline := false
  requireVc := false
  lastPresenceState := []
  idsToTrack := []
  voiceChannelId := ""
  anyOnlineLastChange := 0
  anyOnline := false
  recievedAnyPresenceChange := false
  anyInVoiceChannel := false
  awaitingScriptFinish := false
  lastScriptRun := 0
  onlineScriptRan := false
  offlineScriptRan := false

/-! ## The aggregator -/

/-- The loop `for userId := range idsToTrack` of `areAnyOnline`, with its early return. -/
def scanPresence (lastPresenceState : PresenceMap) : List String → Bool
  | [] => false
  | userId :: rest =>
    let state := mapIndex lastPresenceState userId
    if state != "" && state != StatusOffline then true
    else scanPresence lastPresenceState rest

/-- The function `areAnyOnline`. -/
def areAnyOnline (g : Globals) : Bool :=
  if g.requireVc && g.anyInVoiceChannel then true
  else if g.requireVc && !g.anyInVoiceChannel then false
  else if !g.requireVc && g.anyInVoiceChannel then true
  else scanPresence g.lastPresenceState g.idsToTrack

/-! ## Flip detection and the event handlers -/

/-- The function `runAnyOnlineCheck`; `now` is what `time.Now()` returns inside it. -/
def runAnyOnlineCheck (g : Globals) (now : Int) : Globals :=
  let g1 := { g with recievedAnyPresenceChange := true }
  let newOnlineState := areAnyOnline g1
  if newOnlineState != g1.anyOnline then
    { g1 with anyOnline := newOnlineState, anyOnlineLastChange := now }
  else g1

/-- The function `markVoiceChannelPresenceChange`. -/
def markVoiceChannelPresenceChange (g : Globals) (haveAnyMembers : Bool) (now : Int) : Globals :=
  runAnyOnlineCheck { g with anyInVoiceChannel := haveAnyMembers } now

/-- The fields of a `discordgo.PresenceUpdate` that `presenceUpdate` reads:
`guildMember.User.ID` and `guildMember.Status`. -/
structure PresenceUpdate where
  UserID : String
  Status : Status
  deriving DecidableEq, Repr

/-- The store write of `presenceUpdate`:
`lastPresenceState[guildMember.User.ID] = guildMember.Status`. -/
def storePresence (g : Globals) (guildMember : PresenceUpdate) : Globals :=
  { g with
    lastPresenceState := mapStore g.lastPresenceState guildMember.UserID guildMember.Status }

/-- The function `presenceUpdate`; `now` is what `time.Now()` returns inside it. -/
def presenceUpdate (g : Globals) (guildMember : PresenceUpdate) (now : Int) : Globals :=
  if !(g.idsToTrack.contains guildMember.UserID) then g
  else
    let g1 := storePresence g guildMember
    let g2 := { g1 with recievedAnyPresenceChange := true }
    let newOnlineState := areAnyOnline g2
    if newOnlineState != g2.anyOnline then
      { g2 with anyOnline := newOnlineState, anyOnlineLastChange := now }
    else g2

/-! ## The gateway client's cache, as far as the voice handler reads it -/

/-- A `discordgo.VoiceState`: who is in which channel. -/
structure VoiceState where
  UserID : String
  ChannelID : String
  deriving DecidableEq, Repr

/-- A `discordgo.Member`; only `member.User.ID` is read. -/
structure Member where
  UserID : String
  deriving DecidableEq, Repr

/-- A `discordgo.Guild` of the session cache: its voice states and its cached members. -/
structure Guild where
  ID : String
  VoiceStates : List VoiceState
  Members : List Member
  deriving DecidableEq, Repr

/-- The cache `discord.State` of a `discordgo.Session`. -/
structure Session where
  Guilds : List Guild
  deriving DecidableEq, Repr

/-- The call `discord.State.Guild(guildID)`; `none` stands for the error return. -/
def stateGuild (discord : Session) (guildID : String) : Option Guild :=
  discord.Guilds.find? (fun guild => guild.ID == guildID)

/-- The call `discord.State.Member(guildID, userID)`; `none` stands for the error return. -/
def stateMember (discord : Session) (guildID userID : String) : Option Member :=
  match stateGuild discord guildID with
  | none => none
  | some guild => guild.Members.find? (fun member => member.UserID == userID)

/-- The function `getMembersInVoiceChannel`. -/
def getMembersInVoiceChannel (discord : Session) (guildID channelID : String) : List Member :=
  match stateGuild discord guildID with
  | none => []
  | some guild =>
    guild.VoiceStates.foldl (fun membersInChannel voiceState =>
      if voiceState.ChannelID == channelID then
        match stateMember discord guildID voiceState.UserID with
        | some member => membersInChannel ++ [member]
        | none => membersInChannel
      else membersInChannel) []

/-- The loop `for _, member := range members` that sets `haveAny` and breaks. -/
def haveAnyTracked (idsToTrack : List String) : List Member → Bool
  | [] => false
  | member :: rest =>
    if idsToTrack.contains member.UserID then true else haveAnyTracked idsToTrack rest

/-- The fields of a `discordgo.VoiceStateUpdate` that `voiceChannelUpdate` reads;
`BeforeUpdate = none` is the nil pointer. -/
structure VoiceStateUpdate where
  UserID : String
  GuildID : String
  ChannelID : String
  BeforeUpdate : Option VoiceState
  deriving DecidableEq, Repr

/-- The channel a voice event is taken to be about (`updateVoiceChannelId`). -/
def updateVoiceChannelId (vs : VoiceStateUpdate) : String :=
  let updateVoiceChannelId := ""
  let haveCurrentChannelId := vs.ChannelID != ""
  let updateVoiceChannelId :=
    if haveCurrentChannelId then vs.ChannelID else updateVoiceChannelId
  match vs.BeforeUpdate with
  | none => updateVoiceChannelId
  | some before =>
    let havePreviousChannelId := before.ChannelID != ""
    if !haveCurrentChannelId && havePreviousChannelId then before.ChannelID
    else updateVoiceChannelId

/-- The function `voiceChannelUpdate`; `discord` is the session cache the handler sees. -/
def voiceChannelUpdate (g : Globals) (discord : Session) (vs : VoiceStateUpdate)
    (now : Int) : Globals :=
  let badVoiceChannelId := g.voiceChannelId != updateVoiceChannelId vs
  if badVoiceChannelId then g
  else
    let members := getMembersInVoiceChannel discord vs.GuildID (updateVoiceChannelId vs)
    let haveAny := haveAnyTracked g.idsToTrack members
    markVoiceChannelPresenceChange g haveAny now

/-- An event delivered by the gateway client, with the clock reading of its handler. -/
inductive Event where
  | presence (guildMember : PresenceUpdate) (now : Int)
  | voice (discord : Session) (vs : VoiceStateUpdate) (now : Int)
  deriving DecidableEq, Repr

/-- Run the handler of one event. -/
def handle (g : Globals) : Event → Globals
  | .presence guildMember now => presenceUpdate g guildMember now
  | .voice discord vs now => voiceChannelUpdate g discord vs now

/-! ## Script runner -/

/-- Which of the two configured scripts. -/
inductive Script where
  | online
  | offline
  deriving DecidableEq, Repr

/-- The function `runScript`: the child process runs to completion; a failure (`err`)
only produces a warning line and is not propagated. -/
def runScript (script : String) (err : Bool) : Option String :=
  if err then some ("Error running script " ++ script) else none

/-- The function `runOfflineScript`; `err` is the outcome of the child process and
`finishedAt` what `time.Now()` returns after it has exited. -/
def runOfflineScript (g : Globals) (err : Bool) (finishedAt : Int) : Globals :=
  let g := { g with onlineScriptRan := false, offlineScriptRan := true }
  let g := { g with awaitingScriptFinish := true }
  let _warning := runScript g.offlineScript err
  let g := { g with awaitingScriptFinish := false }
  { g with lastScriptRun := finishedAt }

/-- The function `runOnlineScript`; `err` is the outcome of the child process and
`finishedAt` what `time.Now()` returns after it has exited. -/
def runOnlineScript (g : Globals) (err : Bool) (finishedAt : Int) : Globals :=
  let g := { g with onlineScriptRan := true, offlineScriptRan := false }
  let g := { g with awaitingScriptFinish := true }
  let _warning := runScript g.onlineScript err
  let g := { g with awaitingScriptFinish := false }
  { g with lastScriptRun := finishedAt }

/-! ## Time -/

/-- The largest `time.Duration` (an `int64` of nanoseconds). -/
def maxDuration : Int := 2 ^ 63 - 1

/-- The smallest `time.Duration`. -/
def minDuration : Int := -(2 ^ 63)

/-- The call `time.Since(t)` made at `now`: the difference, saturated to the range of a
`time.Duration`. -/
def since (now t : Int) : Int :=
  let d := now - t
  if d > maxDuration then maxDuration
  else if d < minDuration then minDuration
  else d

/-- Arithmetic on `int64` wraps around. -/
def wrap64 (x : Int) : Int := (x + 2 ^ 63) % 2 ^ 64 - 2 ^ 63

/-! ## The scheduler -/

/-- What one script run leaves in the trace: which script, whether the scheduler had to
sleep out the cooldown before it (`needToRelock`), the value `lastScriptRun` had and the
aggregate and its stamp as the scheduler read them when it chose the script, the moment
the child process was started, and the moment recorded into `lastScriptRun` when it had
exited. -/
structure Invocation where
  script : Script
  waited : Bool
  prevRun : Int
  anyOnlineAtStart : Bool
  lastChangeAtStart : Int
  startedAt : Int
  finishedAt : Int
  err : Bool
  deriving DecidableEq, Repr

/-- The clock readings and the script outcome of one iteration of `dumbDetermine`:
`debounceNow` and `cooldownNow` are the moments of the `time.Since` calls in the debounce
and cooldown guards, `sleepCalcNow` that of the `time.Since` call computing `sleepFor`,
`scriptStart` the moment a script is started, `scriptEnd` the `time.Now()` after it (both
are moved up to the end of the cooldown sleep when the iteration sleeps past them, see
`afterSleep`). -/
structure TickClock where
  debounceNow : Int
  cooldownNow : Int
  sleepCalcNow : Int
  scriptStart : Int
  scriptEnd : Int
  scriptErr : Bool
  deriving DecidableEq, Repr

/-- Start the online script from `dumbDetermine` or `main`, and record it in the trace. -/
def startOnlineScript (g : Globals) (clk : TickClock) (waited : Bool) :
    Globals × List Invocation :=
  (runOnlineScript g clk.scriptErr clk.scriptEnd,
    [{ script := .online, waited := waited, prevRun := g.lastScriptRun, anyOnlineAtStart := g.anyOnline,
       lastChangeAtStart := g.anyOnlineLastChange, startedAt := clk.scriptStart,
       finishedAt := clk.scriptEnd, err := clk.scriptErr }])

/-- Start the offline script from `dumbDetermine` or `main`, and record it in the trace. -/
def startOfflineScript (g : Globals) (clk : TickClock) (waited : Bool) :
    Globals × List Invocation :=
  (runOfflineScript g clk.scriptErr clk.scriptEnd,
    [{ script := .offline, waited := waited, prevRun := g.lastScriptRun, anyOnlineAtStart := g.anyOnline,
       lastChangeAtStart := g.anyOnlineLastChange, startedAt := clk.scriptStart,
       finishedAt := clk.scriptEnd, err := clk.scriptErr }])

/-- The tail of one iteration of `dumbDetermine`, from `haventRanAnything` on: the
dispatch on the globals as they are once the cooldown wait, if any, is over. -/
def dispatch (g : Globals) (clk : TickClock) (needToRelock : Bool) :
    Globals × List Invocation :=
  let haventRanAnything := !g.onlineScriptRan && !g.offlineScriptRan
  if haventRanAnything && g.anyOnline then startOnlineScript g clk needToRelock
  else if haventRanAnything && !g.anyOnline then startOfflineScript g clk needToRelock
  else if g.anyOnline && !g.onlineScriptRan then startOnlineScript g clk needToRelock
  else if !g.anyOnline && !g.offlineScriptRan then startOfflineScript g clk needToRelock
  else (g, [])

/-- The cooldown guard `time.Since(lastScriptRun) < cooldownBtwnScripts`, which is also the
value `needToRelock` ends up with. -/
def needToRelock (g : Globals) (clk : TickClock) : Bool :=
  decide (since clk.cooldownNow g.lastScriptRun < g.cooldownBtwnScripts)

/-- The duration `sleepFor := cooldownBtwnScripts - time.Since(lastScriptRun)`. -/
def sleepFor (g : Globals) (clk : TickClock) : Int :=
  wrap64 (g.cooldownBtwnScripts - since clk.sleepCalcNow g.lastScriptRun)

/-- The clock as the scheduler finds it when `time.Sleep(sleepFor)` returns.  The sleep is
started at `sleepCalcNow` and returns no earlier than `sleepFor` later: a script then
starts at the reading `scriptStart` or at the end of the sleep, whichever is later, and
ends no earlier than it starts. -/
def afterSleep (g : Globals) (clk : TickClock) : TickClock :=
  let wake := max (clk.sleepCalcNow + sleepFor g clk) clk.scriptStart
  { clk with scriptStart := wake, scriptEnd := max wake clk.scriptEnd }

/-- One iteration of the loop of `dumbDetermine`.  While the scheduler holds the read lock
no handler can write the aggregate; when the cooldown guard makes it sleep, the lock is
released, the handlers of the events `during` run before the lock is taken again, and the
dispatch that follows reads the clock as it is after the sleep.  Events handled while a
script runs write neither the script flags nor `lastScriptRun`, so they are the events
that follow the iteration. -/
def dumbDetermineIter (g : Globals) (clk : TickClock) (during : List Event) :
    Globals × List Invocation :=
  if !g.recievedAnyPresenceChange then (g, [])
  else if since clk.debounceNow g.anyOnlineLastChange < DEBOUNCE_PERIOD then (g, [])
  else if (g.anyOnline && g.onlineScriptRan) || (!g.anyOnline && g.offlineScriptRan) then
    (g, [])
  else if needToRelock g clk then
    dispatch (during.foldl handle g) (afterSleep g clk) true
  else dispatch g clk false

/-- The readings of a clock that does not run backwards: the guards are read after the
last script run was recorded and in the order of the code, and the readings offered for
the start and the end of a script follow them. -/
def ClockOk (g : Globals) (clk : TickClock) : Prop :=
  g.lastScriptRun ≤ clk.cooldownNow ∧ clk.debounceNow ≤ clk.cooldownNow ∧
  clk.cooldownNow ≤ clk.sleepCalcNow ∧ clk.sleepCalcNow ≤ clk.scriptStart ∧
  clk.scriptStart ≤ clk.scriptEnd

instance (g : Globals) (clk : TickClock) : Decidable (ClockOk g clk) := by
  unfold ClockOk; infer_instance

/-- What happens next in a run of the program: an event is handled, or the scheduler
makes one iteration.  The events `during` of an iteration are those handled during its
cooldown wait; an iteration that does not wait holds the lock throughout and has none. -/
inductive Step where
  | event (e : Event)
  | tick (clk : TickClock) (during : List Event)
  deriving DecidableEq, Repr

/-- One step of a run. -/
def step (g : Globals) : Step → Globals × List Invocation
  | .event e => (handle g e, [])
  | .tick clk during => dumbDetermineIter g clk during

/-- A run: the final globals and the trace of script runs. -/
def run (g : Globals) : List Step → Globals × List Invocation
  | [] => (g, [])
  | s :: rest => ((run (step g s).1 rest).1, (step g s).2 ++ (run (step g s).1 rest).2)

/-- Every iteration of the run reads a clock that satisfies `ClockOk`. -/
def ValidRun (g : Globals) : List Step → Prop
  | [] => True
  | .event e :: rest => ValidRun (handle g e) rest
  | .tick clk during :: rest =>
    ClockOk g clk ∧ ValidRun (dumbDetermineIter g clk during).1 rest

/-- Whether a run is valid can be computed. -/
def decValidRun : (g : Globals) → (steps : List Step) → Decidable (ValidRun g steps)
  | _, [] => isTrue trivial
  | g, .event e :: rest => decValidRun (handle g e) rest
  | g, .tick clk during :: rest =>
    @instDecidableAnd _ _ _ (decValidRun (dumbDetermineIter g clk during).1 rest)

instance (g : Globals) (steps : List Step) : Decidable (ValidRun g steps) :=
  decValidRun g steps

/-- The start-up scripts of `main`: `start-online` runs the online script, otherwise
`start-offline` runs the offline script. -/
def mainStartScripts (g : Globals) (clk : TickClock) : Globals × List Invocation :=
  if g.startOnline then startOnlineScript g clk false
  else if g.startOffline then startOfflineScript g clk false
  else (g, [])

/-- The program from the start-up scripts on: they run before the session is opened,
then events and scheduler iterations follow. -/
def mainRun (g : Globals) (startClk : TickClock) (steps : List Step) :
    Globals × List Invocation :=
  ((run (mainStartScripts g startClk).1 steps).1,
    (mainStartScripts g startClk).2 ++ (run (mainStartScripts g startClk).1 steps).2)

/-! ## Loading the tracked set -/

/-- The call `strings.Split(s, ",")` on the characters of `s`. -/
def splitComma : List Char → List (List Char)
  | [] => [[]]
  | c :: cs =>
    if c = ',' then [] :: splitComma cs
    else
      match splitComma cs with
      | [] => [[c]]
      | tok :: toks => (c :: tok) :: toks

/-- The predicate `unicode.IsSpace`. -/
def isSpace (c : Char) : Bool :=
  let n := c.toNat
  n == 0x09 || n == 0x0A || n == 0x0B || n == 0x0C || n == 0x0D || n == 0x20 ||
  n == 0x85 || n == 0xA0 || n == 0x1680 || (0x2000 ≤ n && n ≤ 0x200A) ||
  n == 0x2028 || n == 0x2029 || n == 0x202F || n == 0x205F || n == 0x3000

/-- The call `strings.TrimSpace(id)`: leading and trailing white space removed. -/
def trimSpace (id : List Char) : List Char :=
  ((id.dropWhile isSpace).reverse.dropWhile isSpace).reverse

/-- The body of the loop of `loadIdsToTrack` for one piece of the split. -/
def loadId (idsToTrack : List String) (id : List Char) : List String :=
  let id := trimSpace id
  if id == [] then idsToTrack
  else setAdd idsToTrack (String.mk id)

/-- The function `loadIdsToTrack`; `env` is the value of `USERS_IDS_TO_TRACK`. -/
def loadIdsToTrack (g : Globals) (env : String) : Globals :=
  { g with idsToTrack := (splitComma env.toList).foldl loadId g.idsToTrack }

/-! ## What the cooldown promises about a trace -/

/-- A trace of script runs is spaced by `cooldown` after the moment `last` recorded in
`lastScriptRun`: each script starts when `lastScriptRun` holds the end of the run before
it (`last` for the first), no earlier than `cooldown` after that moment, and ends no
earlier than it starts. -/
def Spaced (cooldown : Int) (last : Int) : List Invocation → Prop
  | [] => True
  | inv :: rest =>
    inv.prevRun = last ∧ last ≤ inv.startedAt ∧ cooldown ≤ inv.startedAt - last ∧
    inv.startedAt ≤ inv.finishedAt ∧ Spaced cooldown inv.finishedAt rest

/-- What a dispatch leaves in the trace: nothing, or one run stamped by the clock. -/
def DispatchShape (g : Globals) (clk : TickClock) (r : Globals × List Invocation) : Prop :=
  r.1.cooldownBtwnScripts = g.cooldownBtwnScripts ∧
  ((r.2 = [] ∧ r.1.lastScriptRun = g.lastScriptRun) ∨
   (∃ inv, r.2 = [inv] ∧ inv.prevRun = g.lastScriptRun ∧ inv.startedAt = clk.scriptStart ∧
      inv.finishedAt = clk.scriptEnd ∧ r.1.lastScriptRun = clk.scriptEnd))

/-! ## A worked run

The process is started with `start-online`, tracks "u1" and keeps the default cooldown of
30 seconds.  Moments are written `exampleAt n`: `n` seconds after the start. -/

/-- The moment `n` seconds after the start of the worked run. -/
def exampleAt (n : Int) : Int := 63900000000 * Second + n * Second

/-- The globals of the worked run before `main` runs the start-up script. -/
def exampleGlobals : Globals :=
  { initGlobals with onlineScript := "./online.sh", offlineScript := "./offline.sh",
                     startOnline := true, idsToTrack := ["u1"] }

/-- The start-up script of the worked run takes one second. -/
def exampleStartClk : TickClock :=
  ⟨exampleAt 0, exampleAt 0, exampleAt 0, exampleAt 0, exampleAt 1, false⟩

/-- The worked run.  "u1" comes online at 2 s and goes offline at 10 s.  The iteration at
16 s passes the debounce guard, finds the cooldown unfinished and sleeps until 31 s; while
it sleeps "u1" comes online at 20 s and goes offline at 30 s.  The offline script runs from
31 s to 32 s.  "u1" comes online at 33 s; the iteration at 39 s passes the debounce guard
and sleeps until 62 s, when the online script runs until 63 s (and fails).  "u1" goes
offline at 70 s; the iteration at 100 s passes the debounce guard, finds the cooldown
over and runs the offline script at once. -/
def exampleSteps : List Step :=
  [ .event (.presence ⟨"u1", "online"⟩ (exampleAt 2)),
    .event (.presence ⟨"u1", "offline"⟩ (exampleAt 10)),
    .tick ⟨exampleAt 16, exampleAt 16, exampleAt 16, exampleAt 31, exampleAt 32, false⟩
      [ .presence ⟨"u1", "online"⟩ (exampleAt 20),
        .presence ⟨"u1", "offline"⟩ (exampleAt 30) ],
    .event (.presence ⟨"u1", "online"⟩ (exampleAt 33)),
    .tick ⟨exampleAt 39, exampleAt 39, exampleAt 39, exampleAt 62, exampleAt 63, true⟩ [],
    .event (.presence ⟨"u1", "offline"⟩ (exampleAt 70)),
    .tick ⟨exampleAt 100, exampleAt 100, exampleAt 100, exampleAt 100, exampleAt 101, false⟩ [] ]

/-! ## A worked voice scenario

Voice-only mode with the configured channel "123" and the tracked user "u1". -/

/-- The globals of the voice scenario. -/
def voiceGlobals : Globals :=
  { initGlobals with onlineScript := "./online.sh", offlineScript := "./offline.sh",
                     requireVc := true, voiceChannelId := "123", idsToTrack := ["u1"] }

/-- The session cache once "u1" has joined channel "123". -/
def rosterJoined : Session := ⟨[⟨"guild", [⟨"u1", "123"⟩], [⟨"u1"⟩]⟩]⟩

/-- The session cache once "u1" has moved on to channel "456". -/
def rosterMoved : Session := ⟨[⟨"guild", [⟨"u1", "456"⟩], [⟨"u1"⟩]⟩]⟩

/-- The session cache once "u1" has disconnected from voice. -/
def rosterLeft : Session := ⟨[⟨"guild", [], [⟨"u1"⟩]⟩]⟩

/-- The voice event of "u1" joining channel "123". -/
def joinEvent : VoiceStateUpdate := ⟨"u1", "guild", "123", none⟩

/-- The voice event of "u1" moving from channel "123" to channel "456". -/
def moveEvent : VoiceStateUpdate := ⟨"u1", "guild", "456", some ⟨"u1", "123"⟩⟩

/-- The voice event of "u1" disconnecting from channel "123". -/
def disconnectEvent : VoiceStateUpdate := ⟨"u1", "guild", "", some ⟨"u1", "123"⟩⟩

/-! ## The bootstrap snapshot -/

/-- What the platform answers while `stowStatuses` runs: `guildMembers` is the REST call
`discord.GuildMembers(guildID, "", 1000)` and `presence` the cache lookup
`discord.State.Presence(guildID, userID)` (with `none` for the error return of either);
`memberNow` and `voiceNow` are the readings of `time.Now()` in the `runAnyOnlineCheck`
made for a member of a guild and in the voice seeding of a guild. -/
structure SnapshotApi where
  guildMembers : String → Option (List Member)
  presence : String → String → Option Status
  memberNow : String → String → Int
  voiceNow : String → Int

/-- The body of the loop `for _, member := range members` of `stowStatuses`. -/
def stowMember (api : SnapshotApi) (guildID : String) (g : Globals) (member : Member) :
    Globals :=
  if !(g.idsToTrack.contains member.UserID) then g
  else if mapHas g.lastPresenceState member.UserID then g
  else
    match api.presence guildID member.UserID with
    | none => g
    | some status =>
      let g1 := { g with lastPresenceState := mapStore g.lastPresenceState member.UserID status }
      runAnyOnlineCheck g1 (api.memberNow guildID member.UserID)

/-- The voice seeding at the end of the body of the loop over the guilds. -/
def stowVoice (discord : Session) (api : SnapshotApi) (g : Globals) (guildID : String) :
    Globals :=
  if g.voiceChannelId != "" then
    let members := getMembersInVoiceChannel discord guildID g.voiceChannelId
    let haveAny := haveAnyTracked g.idsToTrack members
    markVoiceChannelPresenceChange g haveAny (api.voiceNow guildID)
  else g

/-- The body of the loop `for _, guild := range discord.State.Guilds` of `stowStatuses`. -/
def stowGuild (discord : Session) (api : SnapshotApi) (g : Globals) (guild : Guild) :
    Globals :=
  match api.guildMembers guild.ID with
  | none => g
  | some members =>
    let g1 := if !g.requireVc then members.foldl (stowMember api guild.ID) g else g
    stowVoice discord api g1 guild.ID

/-- The function `stowStatuses`. -/
def stowStatuses (g : Globals) (discord : Session) (api : SnapshotApi) : Globals :=
  discord.Guilds.foldl (stowGuild discord api) g

/-- The function `setupRequired`; `env` is the value of `USERS_IDS_TO_TRACK`. -/
def setupRequired (g : Globals) (env : String) (discord : Session) (api : SnapshotApi) :
    Globals :=
  stowStatuses (loadIdsToTrack g env) discord api

/-! ## Start-up -/

/-- Which handlers `main` registers with the session. -/
structure Handlers where
  voiceChannelUpdate : Bool
  presenceUpdate : Bool
  deriving DecidableEq, Repr

/-- The handler registration of `main`. -/
def registerHandlers (g : Globals) : Handlers :=
  if g.voiceChannelId != "" && g.requireVc then ⟨true, false⟩
  else if g.voiceChannelId != "" then ⟨true, true⟩
  else ⟨false, true⟩

/-- What `os.Stat` answers for a path: the file does not exist, another error, or the
file's mode bits. -/
inductive StatResult where
  | notExist
  | failed
  | info (mode : Nat)
  deriving DecidableEq, Repr

/-- The function `validateScript`; an `error` is the message of the panic. -/
def validateScript (stat : String → StatResult) (script : String) : Except String Unit :=
  if script == "" then .error "Please provide a path for the script to run!"
  else
    match stat script with
    | .notExist => .error ("Couldn't find file " ++ script ++ "!")
    | .failed => .error "stat failed"
    | .info mode =>
      if mode &&& 0o111 == 0 then .error "File is not executable!" else .ok ()

/-- The function `parseFlags`, on flags that `flag.Parse` has already stored; an `error`
is the message of the panic. -/
def parseFlags (stat : String → StatResult) (g : Globals) : Except String Unit :=
  match validateScript stat g.onlineScript with
  | .error msg => .error msg
  | .ok _ =>
    match validateScript stat g.offlineScript with
    | .error msg => .error msg
    | .ok _ =>
      if g.startOffline && g.startOnline then
        .error ("You cannot choose to start both online and offline scripts for the " ++
          "first run. Pick one.")
      else .ok ()

/-- The digits of `strconv.Atoi`: every character a decimal digit. -/
def parseDigits (acc : Nat) : List Char → Option Nat
  | [] => some acc
  | c :: cs =>
    if '0' ≤ c ∧ c ≤ '9' then parseDigits (10 * acc + (c.toNat - '0'.toNat)) cs else none

/-- The call `strconv.Atoi(s)` with a 64-bit `int`: an optional sign, at least one digit,
nothing else, and a value in range; `none` is the error return. -/
def atoi (s : String) : Option Int :=
  let signed : Bool × List Char :=
    match s.toList with
    | '+' :: rest => (false, rest)
    | '-' :: rest => (true, rest)
    | cs => (false, cs)
  if signed.2.isEmpty then none
  else
    match parseDigits 0 signed.2 with
    | none => none
    | some n =>
      let v : Int := if signed.1 then -(n : Int) else (n : Int)
      if minDuration ≤ v ∧ v ≤ maxDuration then some v else none

/-- What `main` finds around it: the file system, whether `godotenv.Load` fails, the
environment variables, whether `discordgo.New` and `discord.Open` fail, the clock of the
start-up script, and the session cache and platform answers of the snapshot. -/
structure BootEnv where
  stat : String → StatResult
  dotenvErr : Bool
  COOLDOWN_BTWN_SCRIPTS_SECONDS : String
  VOICE_CHANNEL : String
  DISCORD_BOT_TOKEN : String
  USERS_IDS_TO_TRACK : String
  newErr : Bool
  openErr : Bool
  startClk : TickClock
  discord : Session
  api : SnapshotApi

/-- How far `main` got: the message of the panic that ended it, if any, the globals and
the trace of script runs at that point, and the handlers registered by then. -/
structure Boot where
  fatal : Option String
  globals : Globals
  trace : List Invocation
  handlers : Option Handlers

/-- The part of `main` that reads `COOLDOWN_BTWN_SCRIPTS_SECONDS` and `VOICE_CHANNEL`:
a value that `strconv.Atoi` rejects is ignored. -/
def mainConfig (sys : BootEnv) (g : Globals) : Globals :=
  let g1 :=
    match atoi sys.COOLDOWN_BTWN_SCRIPTS_SECONDS with
    | some cooldownInt => { g with cooldownBtwnScripts := wrap64 (cooldownInt * Second) }
    | none => g
  match atoi sys.VOICE_CHANNEL with
  | some _ => { g1 with voiceChannelId := sys.VOICE_CHANNEL }
  | none => g1

/-- The function `main`, up to the start of the scheduler. -/
def mainBoot (sys : BootEnv) (g : Globals) : Boot :=
  match parseFlags sys.stat g with
  | .error msg => ⟨some msg, g, [], none⟩
  | .ok _ =>
    if sys.dotenvErr then ⟨some "godotenv.Load failed", g, [], none⟩
    else
      let g2 := mainConfig sys g
      if g2.voiceChannelId == "" && g2.requireVc then
        ⟨some "Required voice channel, but have an empty voice channel ID! Check your .env",
          g2, [], none⟩
      else if sys.DISCORD_BOT_TOKEN == "" then
        ⟨some "You cannot have an empty DISCORD_BOT_TOKEN in your .env!", g2, [], none⟩
      else if sys.newErr then ⟨some "discordgo.New failed", g2, [], none⟩
      else
        let handlers := registerHandlers g2
        let started := mainStartScripts g2 sys.startClk
        if sys.openErr then ⟨some "discord.Open failed", started.1, started.2, some handlers⟩
        else
          ⟨none, setupRequired started.1 sys.USERS_IDS_TO_TRACK sys.discord sys.api,
            started.2, some handlers⟩

/-! ## Sequences of handled events and seeds -/

/-- One thing handled at a time: a live gateway event, one presence seed of the snapshot
(`stowMember`), one voice seed of the snapshot (`stowVoice`), or a whole `stowStatuses`. -/
inductive Handled where
  | live (e : Event)
  | seedPresence (api : SnapshotApi) (guildID : String) (member : Member)
  | seedVoice (discord : Session) (api : SnapshotApi) (guildID : String)
  | snapshot (discord : Session) (api : SnapshotApi)

/-- Handle one event or seed. -/
def handled (g : Globals) : Handled → Globals
  | .live e => handle g e
  | .seedPresence api guildID member => stowMember api guildID g member
  | .seedVoice discord api guildID => stowVoice discord api g guildID
  | .snapshot discord api => stowStatuses g discord api

/-- The tracked set, the configured channel and the voice-only flag of `g'` are those
of `g`. -/
def SameConfig (g g' : Globals) : Prop :=
  g'.idsToTrack = g.idsToTrack ∧ g'.voiceChannelId = g.voiceChannelId ∧
  g'.requireVc = g.requireVc

/-! ## A worked snapshot

The bot has joined the guilds "A" and "B"; the configured voice channel "123" belongs to
"A" and the tracked user "u1" sits in it.  The platform lists "u1" as a member of either
guild and reports it "offline". -/

/-- The platform's answers in the worked snapshot. -/
def exampleApi : SnapshotApi :=
  ⟨fun _ => some [⟨"u1"⟩], fun _ _ => some "offline", fun _ _ => exampleAt 1,
    fun _ => exampleAt 1⟩

/-- The session cache with guild "A" listed before guild "B". -/
def guildsAB : Session := ⟨[⟨"A", [⟨"u1", "123"⟩], [⟨"u1"⟩]⟩, ⟨"B", [], [⟨"u1"⟩]⟩]⟩

/-- The session cache with guild "B" listed before guild "A". -/
def guildsBA : Session := ⟨[⟨"B", [], [⟨"u1"⟩]⟩, ⟨"A", [⟨"u1", "123"⟩], [⟨"u1"⟩]⟩]⟩

/-- The surroundings of a start with valid scripts, a token, the tracked user "u1", no
voice channel, and the single guild "A" in which "u1" is reported "offline". -/
def exampleBoot : BootEnv :=
  { stat := fun _ => .info 0o755, dotenvErr := false, COOLDOWN_BTWN_SCRIPTS_SECONDS := "",
    VOICE_CHANNEL := "", DISCORD_BOT_TOKEN := "token", USERS_IDS_TO_TRACK := "u1",
    newErr := false, openErr := false, startClk := exampleStartClk,
    discord := ⟨[⟨"A", [], [⟨"u1"⟩]⟩]⟩, api := exampleApi }

/-- A sequence of seeds and events on the tracked user "u1" with the voice channel "123"
configured and voice-only off: a snapshot, an "online" report, a move to channel "456",
and a voice seed that finds the channel empty. -/
def exampleHandled : List Handled :=
  [ .snapshot guildsAB exampleApi,
    .live (.presence ⟨"u1", "online"⟩ (exampleAt 2)),
    .live (.voice rosterMoved moveEvent (exampleAt 3)),
    .seedVoice rosterLeft exampleApi "guild" ]

/-! ## Sequences of script calls -/

/-- One call of `runOnlineScript` or `runOfflineScript`, from `main` or from the scheduler:
which script, how the child process ended, and the `time.Now()` read after it. -/
structure ScriptCall where
  script : Script
  err : Bool
  finishedAt : Int
  deriving DecidableEq, Repr

/-- Make one script call. -/
def callScript (g : Globals) (c : ScriptCall) : Globals :=
  match c.script with
  | .online => runOnlineScript g c.err c.finishedAt
  | .offline => runOfflineScript g c.err c.finishedAt

/-! ## The part of the globals the handlers work on -/

/-- The configuration of the aggregator and the variables the handlers and seeds write:
everything but the script runner's variables and the start flags. -/
def aggView (g : Globals) :
    Bool × List String × String × PresenceMap × Bool × Bool × Int × Bool :=
  (g.requireVc, g.idsToTrack, g.voiceChannelId, g.lastPresenceState, g.anyInVoiceChannel,
    g.anyOnline, g.anyOnlineLastChange, g.recievedAnyPresenceChange)

/-- The globals with both start flags cleared. -/
def withoutStartFlags (g : Globals) : Globals :=
  { g with startOnline := false, startOffline := false }

/-- The surroundings of the worked start, with "u1" reported "online" instead. -/
def exampleBootOnline : BootEnv :=
  { exampleBoot with api := { exampleApi with presence := fun _ _ => some "online" } }

/-- The script runner's variables and the cooldown. -/
def scriptView (g : Globals) : Bool × Bool × Int × Int :=
  (g.onlineScriptRan, g.offlineScriptRan, g.lastScriptRun, g.cooldownBtwnScripts)

/-! ## The channel a voice event is about, in the words of the specification -/

/-- The effective channel of a voice event: the new channel ID if it is non-empty,
otherwise the previous channel ID if there is one, otherwise empty. -/
def effectiveChannel (vs : VoiceStateUpdate) : String :=
  if vs.ChannelID ≠ "" then vs.ChannelID
  else
    match vs.BeforeUpdate with
    | some before => before.ChannelID
    | none => ""

/-- The worked run read off a clock that offers no waiting time of its own: every
iteration gets all its readings at the moment of its guards (16 s, then 39 s), so a script
starts when the cooldown sleep of the iteration is over.  The offline script runs at 31 s
and takes no time; the online script runs at 61 s and is over at 70 s. -/
def exampleEagerSteps : List Step :=
  [ .event (.presence ⟨"u1", "online"⟩ (exampleAt 2)),
    .event (.presence ⟨"u1", "offline"⟩ (exampleAt 10)),
    .tick ⟨exampleAt 16, exampleAt 16, exampleAt 16, exampleAt 16, exampleAt 16, false⟩ [],
    .event (.presence ⟨"u1", "online"⟩ (exampleAt 33)),
    .tick ⟨exampleAt 39, exampleAt 39, exampleAt 39, exampleAt 39, exampleAt 70, false⟩ [] ]

/-! # Theorems -/

/-! ## The aggregator -/

theorem mapIndex_eq_of_lookup {m : PresenceMap} {k : String} {v : Status}
    (h : m.lookup k = some v) : mapIndex m k = v := by
  simp [mapIndex, h]

theorem mapIndex_ne_empty_iff (m : PresenceMap) (k : String) (P : Status → Prop) :
    (mapIndex m k ≠ "" ∧ P (mapIndex m k)) ↔
      ∃ state, m.lookup k = some state ∧ state ≠ "" ∧ P state := by
  unfold mapIndex
  cases h : m.lookup k with
  | none => simp
  | some v => simp

theorem scanPresence_eq_true_iff (m : PresenceMap) (ids : List String) :
    scanPresence m ids = true ↔
      ∃ userId ∈ ids, mapIndex m userId ≠ "" ∧ mapIndex m userId ≠ StatusOffline := by
  induction ids with
  | nil => simp [scanPresence]
  | cons u rest ih =>
    simp only [scanPresence, List.mem_cons, exists_eq_or_imp]
    by_cases h : (mapIndex m u != "" && mapIndex m u != StatusOffline) = true
    · simp only [h, if_true, true_iff]
      left
      simpa using h
    · simp only [h, Bool.false_eq_true, if_false, ih]
      constructor
      · intro hx
        exact Or.inr hx
      · rintro (hx | hx)
        · exact absurd (by simpa using hx) h
        · exact hx

theorem scanPresence_congr (m m' : PresenceMap) (ids : List String)
    (h : ∀ userId ∈ ids, m'.lookup userId = m.lookup userId) :
    scanPresence m' ids = scanPresence m ids := by
  induction ids with
  | nil => rfl
  | cons u rest ih =>
    have hu : mapIndex m' u = mapIndex m u := by
      simp [mapIndex, h u (List.mem_cons_self _ _)]
    simp only [scanPresence, hu]
    rw [ih (fun x hx => h x (List.mem_cons_of_mem _ hx))]

/-- C1: with vc-only off and nobody in the voice channel, `areAnyOnline` is true exactly
when some tracked user has a stored status that is present, non-empty and not "offline";
so it is false for an empty tracked set, and a store that differs only in the records of
untracked users gives the same answer. -/
theorem areAnyOnline_fallback (g : Globals) (hvc : g.requireVc = false)
    (hin : g.anyInVoiceChannel = false) :
    (areAnyOnline g = true ↔
      ∃ userId ∈ g.idsToTrack, ∃ state, g.lastPresenceState.lookup userId = some state ∧
        state ≠ "" ∧ state ≠ StatusOffline) ∧
    (g.idsToTrack = [] → areAnyOnline g = false) ∧
    (∀ m : PresenceMap, (∀ userId ∈ g.idsToTrack, m.lookup userId = g.lastPresenceState.lookup userId) →
      areAnyOnline { g with lastPresenceState := m } = areAnyOnline g) := by
  refine ⟨?_, ?_, ?_⟩
  · simp only [areAnyOnline, hvc, hin, Bool.false_and, Bool.and_false, Bool.not_false,
      Bool.false_eq_true, if_false, scanPresence_eq_true_iff]
    constructor
    · rintro ⟨u, hu, h⟩
      exact ⟨u, hu, (mapIndex_ne_empty_iff _ _ (· ≠ StatusOffline)).1 h⟩
    · rintro ⟨u, hu, h⟩
      exact ⟨u, hu, (mapIndex_ne_empty_iff _ _ (· ≠ StatusOffline)).2 h⟩
  · intro hnil
    simp [areAnyOnline, hvc, hin, hnil, scanPresence]
  · intro m hm
    simp only [areAnyOnline, hvc, hin]
    simp [scanPresence_congr g.lastPresenceState m g.idsToTrack hm]

/-- Witness for C1: one tracked user whose stored status is "online". -/
theorem areAnyOnline_fallback_witness :
    areAnyOnline { initGlobals with idsToTrack := ["user1"],
                                    lastPresenceState := [("user1", "online"), ("user9", "idle")] }
      = true ∧
    areAnyOnline { initGlobals with idsToTrack := ["user1"],
                                    lastPresenceState := [("user1", "offline"), ("user9", "idle")] }
      = false := by
  refine ⟨?_, ?_⟩
  · exact ((areAnyOnline_fallback _ rfl rfl).1).2 ⟨"user1", by decide, "online", by decide⟩
  · decide

/-- C2: with vc-only on, `areAnyOnline` returns `anyInVoiceChannel`, whatever the tracked
set and the presence store hold. -/
theorem areAnyOnline_requireVc (g : Globals) (hvc : g.requireVc = true) :
    areAnyOnline g = g.anyInVoiceChannel := by
  cases hin : g.anyInVoiceChannel <;> simp [areAnyOnline, hvc, hin]

/-- Witness for C2: a tracked user is "online" and nobody is in the channel, and a tracked
user is "offline" while somebody is in the channel. -/
theorem areAnyOnline_requireVc_witness :
    areAnyOnline { initGlobals with requireVc := true, idsToTrack := ["user1"],
                                    lastPresenceState := [("user1", "online")],
                                    anyInVoiceChannel := false } = false ∧
    areAnyOnline { initGlobals with requireVc := true, idsToTrack := ["user1"],
                                    lastPresenceState := [("user1", "offline")],
                                    anyInVoiceChannel := true } = true :=
  ⟨areAnyOnline_requireVc _ rfl, areAnyOnline_requireVc _ rfl⟩

/-- C3: with vc-only off, `areAnyOnline` is true as soon as `anyInVoiceChannel` is, and in
general it is the disjunction of `anyInVoiceChannel` and "some tracked user has a stored
status that is present, non-empty and not offline". -/
theorem areAnyOnline_voice_or_presence (g : Globals) (hvc : g.requireVc = false) :
    (g.anyInVoiceChannel = true → areAnyOnline g = true) ∧
    (areAnyOnline g = true ↔
      (g.anyInVoiceChannel = true ∨
        ∃ userId ∈ g.idsToTrack, ∃ state, g.lastPresenceState.lookup userId = some state ∧
          state ≠ "" ∧ state ≠ StatusOffline)) := by
  cases hin : g.anyInVoiceChannel
  · refine ⟨by simp, ?_⟩
    simp only [areAnyOnline, hvc, hin, Bool.false_and, Bool.and_false, Bool.not_false,
      Bool.false_eq_true, if_false, scanPresence_eq_true_iff, false_or]
    constructor
    · rintro ⟨u, hu, h⟩
      exact ⟨u, hu, (mapIndex_ne_empty_iff _ _ (· ≠ StatusOffline)).1 h⟩
    · rintro ⟨u, hu, h⟩
      exact ⟨u, hu, (mapIndex_ne_empty_iff _ _ (· ≠ StatusOffline)).2 h⟩
  · simp [areAnyOnline, hvc, hin]

/-- Witness for C3: the tracked user is "offline" and somebody is in the channel. -/
theorem areAnyOnline_voice_or_presence_witness :
    areAnyOnline { initGlobals with idsToTrack := ["user1"],
                                    lastPresenceState := [("user1", "offline")],
                                    anyInVoiceChannel := true } = true :=
  (areAnyOnline_voice_or_presence _ rfl).1 rfl

/-! ## Flip detection -/

theorem areAnyOnline_recieved (g : Globals) (b : Bool) :
    areAnyOnline { g with recievedAnyPresenceChange := b } = areAnyOnline g := rfl

theorem runAnyOnlineCheck_anyOnline (g : Globals) (now : Int) :
    (runAnyOnlineCheck g now).anyOnline = areAnyOnline g := by
  unfold runAnyOnlineCheck
  simp only [areAnyOnline_recieved]
  by_cases h : areAnyOnline g = g.anyOnline
  · simp [h]
  · simp [h]

theorem runAnyOnlineCheck_lastChange (g : Globals) (now : Int) :
    (runAnyOnlineCheck g now).anyOnlineLastChange =
      if areAnyOnline g = g.anyOnline then g.anyOnlineLastChange else now := by
  unfold runAnyOnlineCheck
  simp only [areAnyOnline_recieved]
  by_cases h : areAnyOnline g = g.anyOnline
  · simp [h]
  · simp [h]

theorem presenceUpdate_tracked (g : Globals) (guildMember : PresenceUpdate) (now : Int)
    (h : guildMember.UserID ∈ g.idsToTrack) :
    presenceUpdate g guildMember now = runAnyOnlineCheck (storePresence g guildMember) now := by
  simp [presenceUpdate, runAnyOnlineCheck, h]

theorem runAnyOnlineCheck_flip (s : Globals) (now : Int) :
    (areAnyOnline s ≠ s.anyOnline →
      (runAnyOnlineCheck s now).anyOnline = areAnyOnline s ∧
      (runAnyOnlineCheck s now).anyOnlineLastChange = now) ∧
    (areAnyOnline s = s.anyOnline →
      (runAnyOnlineCheck s now).anyOnline = s.anyOnline ∧
      (runAnyOnlineCheck s now).anyOnlineLastChange = s.anyOnlineLastChange) ∧
    (now ≠ s.anyOnlineLastChange →
      ((runAnyOnlineCheck s now).anyOnlineLastChange = now ↔
        areAnyOnline s ≠ s.anyOnline)) := by
  rw [runAnyOnlineCheck_anyOnline, runAnyOnlineCheck_lastChange]
  by_cases h : areAnyOnline s = s.anyOnline
  · simp only [h, if_true, ne_eq, not_true_eq_false, false_implies, true_implies,
      and_self, true_and, iff_false]
    intro hne heq
    exact hne heq.symm
  · simp [h]

/-- C8: at the aggregate recompute of `runAnyOnlineCheck`, and at the same sequence in
`presenceUpdate` for a tracked user (after the store has been written), if the recomputed
aggregate differs from the stored `anyOnline` then `anyOnline` becomes the recomputed value
and `anyOnlineLastChange` becomes `now`; if they are equal both keep their values.  So
`anyOnlineLastChange` takes a new value `now` exactly when the aggregate flips. -/
theorem flip_detection (g : Globals) (now : Int) (guildMember : PresenceUpdate) :
    ((areAnyOnline g ≠ g.anyOnline →
        (runAnyOnlineCheck g now).anyOnline = areAnyOnline g ∧
        (runAnyOnlineCheck g now).anyOnlineLastChange = now) ∧
      (areAnyOnline g = g.anyOnline →
        (runAnyOnlineCheck g now).anyOnline = g.anyOnline ∧
        (runAnyOnlineCheck g now).anyOnlineLastChange = g.anyOnlineLastChange) ∧
      (now ≠ g.anyOnlineLastChange →
        ((runAnyOnlineCheck g now).anyOnlineLastChange = now ↔
          areAnyOnline g ≠ g.anyOnline))) ∧
    (guildMember.UserID ∈ g.idsToTrack →
      (areAnyOnline (storePresence g guildMember) ≠ g.anyOnline →
        (presenceUpdate g guildMember now).anyOnline =
          areAnyOnline (storePresence g guildMember) ∧
        (presenceUpdate g guildMember now).anyOnlineLastChange = now) ∧
      (areAnyOnline (storePresence g guildMember) = g.anyOnline →
        (presenceUpdate g guildMember now).anyOnline = g.anyOnline ∧
        (presenceUpdate g guildMember now).anyOnlineLastChange = g.anyOnlineLastChange) ∧
      (now ≠ g.anyOnlineLastChange →
        ((presenceUpdate g guildMember now).anyOnlineLastChange = now ↔
          areAnyOnline (storePresence g guildMember) ≠ g.anyOnline))) := by
  refine ⟨runAnyOnlineCheck_flip g now, ?_⟩
  intro htracked
  rw [presenceUpdate_tracked g guildMember now htracked]
  exact runAnyOnlineCheck_flip (storePresence g guildMember) now

/-- Witness for C8: the tracked user "user1" comes online (a flip, stamped 7), and then
reports "idle" (no flip, the stamp stays 7). -/
theorem flip_detection_witness :
    (presenceUpdate { initGlobals with idsToTrack := ["user1"] } ⟨"user1", "online"⟩ 7).anyOnline
      = true ∧
    (presenceUpdate { initGlobals with idsToTrack := ["user1"] }
      ⟨"user1", "online"⟩ 7).anyOnlineLastChange = 7 ∧
    (presenceUpdate (presenceUpdate { initGlobals with idsToTrack := ["user1"] }
      ⟨"user1", "online"⟩ 7) ⟨"user1", "idle"⟩ 9).anyOnlineLastChange = 7 :=
  ⟨(((flip_detection { initGlobals with idsToTrack := ["user1"] } 7 ⟨"user1", "online"⟩).2
      (by decide)).1 (by decide)).1,
   (((flip_detection { initGlobals with idsToTrack := ["user1"] } 7 ⟨"user1", "online"⟩).2
      (by decide)).1 (by decide)).2,
   (((flip_detection (presenceUpdate { initGlobals with idsToTrack := ["user1"] }
      ⟨"user1", "online"⟩ 7) 9 ⟨"user1", "idle"⟩).2 (by decide)).2.1 (by decide)).2⟩

/-! ## Untracked users -/

/-- C9: a presence event for a user that is not in `idsToTrack` leaves every global as it
was, in particular `lastPresenceState`, `anyOnline` and `anyOnlineLastChange`. -/
theorem presenceUpdate_untracked (g : Globals) (guildMember : PresenceUpdate) (now : Int)
    (h : guildMember.UserID ∉ g.idsToTrack) :
    (presenceUpdate g guildMember now).lastPresenceState = g.lastPresenceState ∧
    (presenceUpdate g guildMember now).anyOnline = g.anyOnline ∧
    (presenceUpdate g guildMember now).anyOnlineLastChange = g.anyOnlineLastChange ∧
    presenceUpdate g guildMember now = g := by
  have : presenceUpdate g guildMember now = g := by
    simp [presenceUpdate, h]
  simp [this]

/-- Witness for C9: "user2" is not tracked, its "online" event changes nothing. -/
theorem presenceUpdate_untracked_witness :
    presenceUpdate { initGlobals with idsToTrack := ["user1"] } ⟨"user2", "online"⟩ 7
      = { initGlobals with idsToTrack := ["user1"] } :=
  (presenceUpdate_untracked { initGlobals with idsToTrack := ["user1"] } ⟨"user2", "online"⟩ 7
    (by decide)).2.2.2

/-! ## Voice events -/

theorem voiceChannelUpdate_of_bad (g : Globals) (discord : Session) (vs : VoiceStateUpdate)
    (now : Int) (h : g.voiceChannelId ≠ updateVoiceChannelId vs) :
    voiceChannelUpdate g discord vs now = g := by
  simp [voiceChannelUpdate, h]

theorem updateVoiceChannelId_of_current (vs : VoiceStateUpdate) (h : vs.ChannelID ≠ "") :
    updateVoiceChannelId vs = vs.ChannelID := by
  unfold updateVoiceChannelId
  cases vs.BeforeUpdate <;> simp [h]

theorem voiceChannelUpdate_of_good (g : Globals) (discord : Session) (vs : VoiceStateUpdate)
    (now : Int) (h : g.voiceChannelId = updateVoiceChannelId vs) :
    voiceChannelUpdate g discord vs now =
      markVoiceChannelPresenceChange g
        (haveAnyTracked g.idsToTrack
          (getMembersInVoiceChannel discord vs.GuildID (updateVoiceChannelId vs))) now := by
  simp [voiceChannelUpdate, h]

/-- C4, the code at the failing input: vc-only is on, the configured channel is "123" and
"u1" is tracked.  The event in which "u1" joins channel 123 makes `anyOnline` true.  The
event in which "u1" then moves to channel "456" (previous channel "123", the roster of 123
now empty) is dropped by the `badVoiceChannelId` guard: `anyInVoiceChannel` and `anyOnline`
stay true.  Had "u1" disconnected instead (no new channel, previous channel "123"), the
handler would have recomputed and `anyOnline` would be false. -/
theorem voice_move_away_keeps_anyOnline :
    (voiceChannelUpdate voiceGlobals rosterJoined joinEvent (exampleAt 2)).anyOnline = true ∧
    getMembersInVoiceChannel rosterMoved "guild" "123" = [] ∧
    updateVoiceChannelId moveEvent = "456" ∧
    (voiceChannelUpdate (voiceChannelUpdate voiceGlobals rosterJoined joinEvent (exampleAt 2))
      rosterMoved moveEvent (exampleAt 9)).anyInVoiceChannel = true ∧
    (voiceChannelUpdate (voiceChannelUpdate voiceGlobals rosterJoined joinEvent (exampleAt 2))
      rosterMoved moveEvent (exampleAt 9)).anyOnline = true ∧
    (voiceChannelUpdate (voiceChannelUpdate voiceGlobals rosterJoined joinEvent (exampleAt 2))
      rosterLeft disconnectEvent (exampleAt 9)).anyOnline = false := by
  decide

/-! ## The scheduler: handlers never touch the script runner's variables -/

theorem runAnyOnlineCheck_script (g : Globals) (now : Int) :
    (runAnyOnlineCheck g now).onlineScriptRan = g.onlineScriptRan ∧
    (runAnyOnlineCheck g now).offlineScriptRan = g.offlineScriptRan ∧
    (runAnyOnlineCheck g now).lastScriptRun = g.lastScriptRun ∧
    (runAnyOnlineCheck g now).cooldownBtwnScripts = g.cooldownBtwnScripts := by
  unfold runAnyOnlineCheck
  dsimp only
  split <;> simp

theorem handle_script (g : Globals) (e : Event) :
    (handle g e).onlineScriptRan = g.onlineScriptRan ∧
    (handle g e).offlineScriptRan = g.offlineScriptRan ∧
    (handle g e).lastScriptRun = g.lastScriptRun ∧
    (handle g e).cooldownBtwnScripts = g.cooldownBtwnScripts := by
  cases e with
  | presence guildMember now =>
    by_cases h : guildMember.UserID ∈ g.idsToTrack
    · simp only [handle, presenceUpdate_tracked g guildMember now h]
      exact runAnyOnlineCheck_script (storePresence g guildMember) now
    · simp [handle, presenceUpdate, h]
  | voice discord vs now =>
    by_cases h : g.voiceChannelId = updateVoiceChannelId vs
    · simp only [handle, voiceChannelUpdate_of_good g discord vs now h,
        markVoiceChannelPresenceChange]
      exact runAnyOnlineCheck_script _ now
    · simp [handle, voiceChannelUpdate_of_bad g discord vs now h]

theorem foldl_handle_script (during : List Event) (g : Globals) :
    (during.foldl handle g).onlineScriptRan = g.onlineScriptRan ∧
    (during.foldl handle g).offlineScriptRan = g.offlineScriptRan ∧
    (during.foldl handle g).lastScriptRun = g.lastScriptRun ∧
    (during.foldl handle g).cooldownBtwnScripts = g.cooldownBtwnScripts := by
  induction during generalizing g with
  | nil => simp
  | cons e rest ih =>
    obtain ⟨h1, h2, h3, h4⟩ := handle_script g e
    obtain ⟨i1, i2, i3, i4⟩ := ih (handle g e)
    simp only [List.foldl_cons]
    exact ⟨i1.trans h1, i2.trans h2, i3.trans h3, i4.trans h4⟩

/-! ## Idempotence -/

theorem dumbDetermineIter_alreadyRan (g : Globals) (clk : TickClock) (during : List Event)
    (h : (g.anyOnline = true ∧ g.onlineScriptRan = true) ∨
         (g.anyOnline = false ∧ g.offlineScriptRan = true)) :
    dumbDetermineIter g clk during = (g, []) := by
  unfold dumbDetermineIter
  have hb : ((g.anyOnline && g.onlineScriptRan) || (!g.anyOnline && g.offlineScriptRan)) = true := by
    rcases h with ⟨h1, h2⟩ | ⟨h1, h2⟩ <;> simp [h1, h2]
  simp only [hb, if_true]
  split
  · rfl
  · split <;> rfl

theorem run_cons (g : Globals) (s : Step) (rest : List Step) :
    run g (s :: rest) =
      ((run (step g s).1 rest).1, (step g s).2 ++ (run (step g s).1 rest).2) := rfl

/-- C7: from a state in which the script matching the aggregate has already run, a run of
scheduler iterations and events along which the aggregate `anyOnline` never changes starts
no script and leaves `onlineScriptRan`, `offlineScriptRan` and `lastScriptRun` as they
were.  The flags do not record how the script exited, so this holds after a failed script
as well. -/
theorem scheduler_idempotent (g : Globals)
    (h : (g.anyOnline = true ∧ g.onlineScriptRan = true) ∨
         (g.anyOnline = false ∧ g.offlineScriptRan = true))
    (steps : List Step)
    (hfix : ∀ pre : List Step, pre <+: steps → (run g pre).1.anyOnline = g.anyOnline) :
    (run g steps).2 = [] ∧
    (run g steps).1.onlineScriptRan = g.onlineScriptRan ∧
    (run g steps).1.offlineScriptRan = g.offlineScriptRan ∧
    (run g steps).1.lastScriptRun = g.lastScriptRun := by
  induction steps generalizing g with
  | nil => simp [run]
  | cons s rest ih =>
    have h1 : (step g s).1.anyOnline = g.anyOnline := by
      have := hfix [s] (by simp)
      simpa [run] using this
    have hstep : (step g s).2 = [] ∧ (step g s).1.onlineScriptRan = g.onlineScriptRan ∧
        (step g s).1.offlineScriptRan = g.offlineScriptRan ∧
        (step g s).1.lastScriptRun = g.lastScriptRun := by
      cases s with
      | event e =>
        obtain ⟨e1, e2, e3, _⟩ := handle_script g e
        exact ⟨rfl, e1, e2, e3⟩
      | tick clk during =>
        simp [step, dumbDetermineIter_alreadyRan g clk during h]
    obtain ⟨s0, s1, s2, s3⟩ := hstep
    have h' : ((step g s).1.anyOnline = true ∧ (step g s).1.onlineScriptRan = true) ∨
        ((step g s).1.anyOnline = false ∧ (step g s).1.offlineScriptRan = true) := by
      rw [h1, s1, s2]
      exact h
    have hfix' : ∀ pre : List Step, pre <+: rest →
        (run (step g s).1 pre).1.anyOnline = (step g s).1.anyOnline := by
      intro pre hpre
      have := hfix (s :: pre) ((List.prefix_cons_inj s).2 hpre)
      rw [run_cons] at this
      rw [h1]
      exact this
    obtain ⟨i0, i1, i2, i3⟩ := ih (step g s).1 h' hfix'
    rw [run_cons]
    refine ⟨by simp [s0, i0], i1.trans s1, i2.trans s2, i3.trans s3⟩

/-- Witness for C7: the online script has run (and failed or not, the state is the same),
the aggregate is true; two scheduler iterations with an "idle" report of the tracked user
between them start nothing. -/
theorem scheduler_idempotent_witness :
    (run { initGlobals with idsToTrack := ["user1"], lastPresenceState := [("user1", "online")],
                            anyOnline := true, recievedAnyPresenceChange := true,
                            onlineScriptRan := true, lastScriptRun := 50 }
      [.tick ⟨100, 100, 100, 100, 100, true⟩ [], .event (.presence ⟨"user1", "idle"⟩ 150),
       .tick ⟨200, 200, 200, 200, 200, false⟩ []]).2 = [] :=
  (scheduler_idempotent _ (Or.inl ⟨rfl, rfl⟩) _ (by
    intro pre hpre
    rw [← List.mem_inits] at hpre
    simp only [List.inits, List.mem_cons, List.map_cons, List.map_nil] at hpre
    rcases hpre with rfl | rfl | rfl | rfl | hpre
    · decide
    · decide
    · decide
    · decide
    · cases hpre)).1

/-! ## Cooldown -/

theorem since_of_le (now t : Int) (h : t ≤ now) :
    0 ≤ since now t ∧ since now t ≤ now - t ∧ since now t ≤ maxDuration := by
  unfold since maxDuration minDuration
  dsimp only
  split
  · omega
  · split <;> omega

theorem wrap64_of_range (x : Int) (h1 : minDuration ≤ x) (h2 : x ≤ maxDuration) :
    wrap64 x = x := by
  unfold wrap64
  unfold minDuration at h1
  unfold maxDuration at h2
  omega

theorem runOnlineScript_fields (g : Globals) (err : Bool) (finishedAt : Int) :
    (runOnlineScript g err finishedAt).lastScriptRun = finishedAt ∧
    (runOnlineScript g err finishedAt).cooldownBtwnScripts = g.cooldownBtwnScripts := by
  simp [runOnlineScript]

theorem runOfflineScript_fields (g : Globals) (err : Bool) (finishedAt : Int) :
    (runOfflineScript g err finishedAt).lastScriptRun = finishedAt ∧
    (runOfflineScript g err finishedAt).cooldownBtwnScripts = g.cooldownBtwnScripts := by
  simp [runOfflineScript]

theorem startOnlineScript_shape (g : Globals) (clk : TickClock) (waited : Bool) :
    DispatchShape g clk (startOnlineScript g clk waited) := by
  unfold DispatchShape startOnlineScript
  exact ⟨(runOnlineScript_fields g clk.scriptErr clk.scriptEnd).2,
    Or.inr ⟨_, rfl, rfl, rfl, rfl, (runOnlineScript_fields g clk.scriptErr clk.scriptEnd).1⟩⟩

theorem startOfflineScript_shape (g : Globals) (clk : TickClock) (waited : Bool) :
    DispatchShape g clk (startOfflineScript g clk waited) := by
  unfold DispatchShape startOfflineScript
  exact ⟨(runOfflineScript_fields g clk.scriptErr clk.scriptEnd).2,
    Or.inr ⟨_, rfl, rfl, rfl, rfl, (runOfflineScript_fields g clk.scriptErr clk.scriptEnd).1⟩⟩

theorem dispatch_shape (g : Globals) (clk : TickClock) (waited : Bool) :
    DispatchShape g clk (dispatch g clk waited) := by
  unfold dispatch
  dsimp only
  split
  · exact startOnlineScript_shape g clk waited
  · split
    · exact startOfflineScript_shape g clk waited
    · split
      · exact startOnlineScript_shape g clk waited
      · split
        · exact startOfflineScript_shape g clk waited
        · exact ⟨rfl, Or.inl ⟨rfl, rfl⟩⟩

theorem sleepFor_of_needToRelock (g : Globals) (clk : TickClock)
    (hmax : g.cooldownBtwnScripts ≤ maxDuration) (hclk : ClockOk g clk)
    (hr : needToRelock g clk = true) :
    sleepFor g clk = g.cooldownBtwnScripts - since clk.sleepCalcNow g.lastScriptRun := by
  obtain ⟨h1, _, h3, _, _⟩ := hclk
  have hs1 := since_of_le clk.cooldownNow g.lastScriptRun h1
  have hs2 := since_of_le clk.sleepCalcNow g.lastScriptRun (le_trans h1 h3)
  have hlt : since clk.cooldownNow g.lastScriptRun < g.cooldownBtwnScripts := by
    simpa [needToRelock] using hr
  unfold sleepFor
  apply wrap64_of_range
  · unfold minDuration
    unfold maxDuration at hs2
    omega
  · omega

theorem afterSleep_cooldown (g : Globals) (clk : TickClock)
    (hmax : g.cooldownBtwnScripts ≤ maxDuration) (hclk : ClockOk g clk)
    (hr : needToRelock g clk = true) :
    g.lastScriptRun ≤ (afterSleep g clk).scriptStart ∧
    g.cooldownBtwnScripts ≤ (afterSleep g clk).scriptStart - g.lastScriptRun ∧
    (afterSleep g clk).scriptStart ≤ (afterSleep g clk).scriptEnd := by
  have hw := sleepFor_of_needToRelock g clk hmax hclk hr
  obtain ⟨h1, _, h3, h4, _⟩ := hclk
  have hs2 := since_of_le clk.sleepCalcNow g.lastScriptRun (le_trans h1 h3)
  have hwake : clk.sleepCalcNow + sleepFor g clk ≤ (afterSleep g clk).scriptStart :=
    le_max_left _ _
  have hread : clk.scriptStart ≤ (afterSleep g clk).scriptStart := le_max_right _ _
  have hend : (afterSleep g clk).scriptStart ≤ (afterSleep g clk).scriptEnd :=
    le_max_left _ _
  rw [hw] at hwake
  refine ⟨by omega, by omega, hend⟩

theorem noSleep_cooldown (g : Globals) (clk : TickClock) (hclk : ClockOk g clk)
    (hr : ¬ needToRelock g clk = true) :
    g.lastScriptRun ≤ clk.scriptStart ∧
    g.cooldownBtwnScripts ≤ clk.scriptStart - g.lastScriptRun ∧
    clk.scriptStart ≤ clk.scriptEnd := by
  obtain ⟨h1, _, h3, h4, h5⟩ := hclk
  have hs1 := since_of_le clk.cooldownNow g.lastScriptRun h1
  have hge : g.cooldownBtwnScripts ≤ since clk.cooldownNow g.lastScriptRun := by
    simpa [needToRelock] using hr
  refine ⟨by omega, by omega, h5⟩

/-- What one iteration of the scheduler leaves in the trace: nothing, or one script run
that starts no earlier than the cooldown after the last recorded run. -/
theorem dumbDetermineIter_spaced (g : Globals) (clk : TickClock) (during : List Event)
    (hmax : g.cooldownBtwnScripts ≤ maxDuration) (hclk : ClockOk g clk) :
    (dumbDetermineIter g clk during).1.cooldownBtwnScripts = g.cooldownBtwnScripts ∧
    (((dumbDetermineIter g clk during).2 = [] ∧
        (dumbDetermineIter g clk during).1.lastScriptRun = g.lastScriptRun) ∨
     (∃ inv, (dumbDetermineIter g clk during).2 = [inv] ∧ inv.prevRun = g.lastScriptRun ∧
        g.lastScriptRun ≤ inv.startedAt ∧
        g.cooldownBtwnScripts ≤ inv.startedAt - g.lastScriptRun ∧
        inv.startedAt ≤ inv.finishedAt ∧
        (dumbDetermineIter g clk during).1.lastScriptRun = inv.finishedAt)) := by
  unfold dumbDetermineIter
  split
  · exact ⟨rfl, Or.inl ⟨rfl, rfl⟩⟩
  · split
    · exact ⟨rfl, Or.inl ⟨rfl, rfl⟩⟩
    · split
      · exact ⟨rfl, Or.inl ⟨rfl, rfl⟩⟩
      · split
        · rename_i hr
          obtain ⟨_, _, f3, f4⟩ := foldl_handle_script during g
          obtain ⟨c1, c2, c3⟩ := afterSleep_cooldown g clk hmax hclk hr
          obtain ⟨hc, hshape⟩ := dispatch_shape (during.foldl handle g) (afterSleep g clk) true
          rw [f3] at hshape
          rw [f4] at hc
          refine ⟨hc, ?_⟩
          rcases hshape with ⟨hlog, hlast⟩ | ⟨inv, hlog, hp, hs, hf, hlast⟩
          · exact Or.inl ⟨hlog, hlast⟩
          · refine Or.inr ⟨inv, hlog, hp, ?_, ?_, ?_, ?_⟩
            · rw [hs]; exact c1
            · rw [hs]; exact c2
            · rw [hs, hf]; exact c3
            · rw [hlast, hf]
        · rename_i hr
          obtain ⟨c1, c2, c3⟩ := noSleep_cooldown g clk hclk hr
          obtain ⟨hc, hshape⟩ := dispatch_shape g clk false
          refine ⟨hc, ?_⟩
          rcases hshape with ⟨hlog, hlast⟩ | ⟨inv, hlog, hp, hs, hf, hlast⟩
          · exact Or.inl ⟨hlog, hlast⟩
          · refine Or.inr ⟨inv, hlog, hp, ?_, ?_, ?_, ?_⟩
            · rw [hs]; exact c1
            · rw [hs]; exact c2
            · rw [hs, hf]; exact c3
            · rw [hlast, hf]

theorem run_spaced (steps : List Step) (g : Globals)
    (hmax : g.cooldownBtwnScripts ≤ maxDuration) (hvalid : ValidRun g steps) :
    Spaced g.cooldownBtwnScripts g.lastScriptRun (run g steps).2 := by
  induction steps generalizing g with
  | nil => simp [run, Spaced]
  | cons s rest ih =>
    rw [run_cons]
    cases s with
    | event e =>
      obtain ⟨_, _, e3, e4⟩ := handle_script g e
      have := ih (handle g e) (by rw [e4]; exact hmax) hvalid
      rw [e3, e4] at this
      simpa [step] using this
    | tick clk during =>
      obtain ⟨hclk, hrest⟩ := hvalid
      obtain ⟨hc, hshape⟩ := dumbDetermineIter_spaced g clk during hmax hclk
      have hih := ih (dumbDetermineIter g clk during).1 (by rw [hc]; exact hmax) hrest
      rw [hc] at hih
      simp only [step]
      rcases hshape with ⟨hlog, hlast⟩ | ⟨inv, hlog, hp, h1, h2, h3, hlast⟩
      · rw [hlast] at hih
        rw [hlog]
        simpa using hih
      · rw [hlast] at hih
        rw [hlog]
        simp only [List.singleton_append, Spaced]
        exact ⟨hp, h1, h2, h3, hih⟩

theorem Spaced.mem {cooldown last : Int} {log : List Invocation}
    (h : Spaced cooldown last log) :
    ∀ b ∈ log, last ≤ b.startedAt ∧ cooldown ≤ b.startedAt - last ∧
      cooldown ≤ b.startedAt - b.prevRun := by
  induction log generalizing last with
  | nil => simp
  | cons a rest ih =>
    obtain ⟨h1, h2, h3, h4, h5⟩ := h
    intro b hb
    rcases List.mem_cons.1 hb with rfl | hb
    · exact ⟨h2, h3, by rw [h1]; exact h3⟩
    · obtain ⟨i1, i2, i3⟩ := ih h5 b hb
      exact ⟨by omega, by omega, i3⟩

theorem Spaced.pairwise {cooldown last : Int} {log : List Invocation}
    (h : Spaced cooldown last log) :
    log.Pairwise (fun a b => cooldown ≤ b.startedAt - a.finishedAt ∧
      cooldown ≤ b.startedAt - a.startedAt) := by
  induction log generalizing last with
  | nil => exact List.Pairwise.nil
  | cons a rest ih =>
    obtain ⟨_, _, _, h4, h5⟩ := h
    refine List.Pairwise.cons ?_ (ih h5)
    intro b hb
    obtain ⟨_, i2, _⟩ := Spaced.mem h5 b hb
    exact ⟨i2, by omega⟩

theorem Spaced.chain {cooldown last : Int} {log : List Invocation}
    (h : Spaced cooldown last log) :
    log.Chain' (fun a b => b.prevRun = a.finishedAt) := by
  induction log generalizing last with
  | nil => exact List.chain'_nil
  | cons a rest ih =>
    obtain ⟨_, _, _, _, h5⟩ := h
    cases rest with
    | nil => exact List.chain'_singleton a
    | cons b rest' =>
      exact List.chain'_cons.2 ⟨h5.1, ih h5⟩

theorem mainStartScripts_shape (g : Globals) (clk : TickClock) :
    DispatchShape g clk (mainStartScripts g clk) := by
  unfold mainStartScripts
  split
  · exact startOnlineScript_shape g clk false
  · split
    · exact startOfflineScript_shape g clk false
    · exact ⟨rfl, Or.inl ⟨rfl, rfl⟩⟩

theorem dumbDetermineIter_wait (s : Globals) (clk : TickClock) (during : List Event)
    (hr : needToRelock s clk = true) :
    ∀ inv ∈ (dumbDetermineIter s clk during).2,
      clk.sleepCalcNow + sleepFor s clk ≤ inv.startedAt := by
  unfold dumbDetermineIter
  split
  · simp
  · split
    · simp
    · split
      · simp
      · intro inv hinv
        obtain ⟨_, hshape⟩ := dispatch_shape (during.foldl handle s) (afterSleep s clk) true
        rcases hshape with ⟨hlog, _⟩ | ⟨inv', hlog, _, hs, _, _⟩
        · rw [hlog] at hinv
          cases hinv
        · rw [hlog, List.mem_singleton] at hinv
          rw [hinv, hs]
          exact le_max_left _ _

/-- C6: take a run of the program from the start-up script (if `start-online` or
`start-offline` asks for one) through any sequence of events and scheduler iterations,
read off a clock that does not run backwards.  Whenever the scheduler starts a script, at
least `cooldownBtwnScripts` has elapsed since the moment recorded in `lastScriptRun`; that
moment is the end of the script run before it; and any two script runs of the trace, the
start-up one included, are at least `cooldownBtwnScripts` apart, measured from the end as
well as from the start of the earlier one.  The spacing is the scheduler's doing: an
iteration that finds the cooldown unfinished starts its script no earlier than the end of
its `time.Sleep(sleepFor)`. -/
theorem cooldown_between_scripts (g : Globals) (startClk : TickClock) (steps : List Step)
    (hmax : g.cooldownBtwnScripts ≤ maxDuration)
    (hstart : startClk.scriptStart ≤ startClk.scriptEnd)
    (hvalid : ValidRun (mainStartScripts g startClk).1 steps) :
    (∀ inv ∈ (run (mainStartScripts g startClk).1 steps).2,
      g.cooldownBtwnScripts ≤ inv.startedAt - inv.prevRun) ∧
    (mainRun g startClk steps).2.Chain' (fun a b => b.prevRun = a.finishedAt) ∧
    (mainRun g startClk steps).2.Pairwise (fun a b =>
      g.cooldownBtwnScripts ≤ b.startedAt - a.finishedAt ∧
      g.cooldownBtwnScripts ≤ b.startedAt - a.startedAt) ∧
    (∀ (s : Globals) (clk : TickClock) (during : List Event),
      since clk.cooldownNow s.lastScriptRun < s.cooldownBtwnScripts →
      ∀ inv ∈ (dumbDetermineIter s clk during).2,
        clk.sleepCalcNow + sleepFor s clk ≤ inv.startedAt) := by
  obtain ⟨hc, hshape⟩ := mainStartScripts_shape g startClk
  have hsp := run_spaced steps (mainStartScripts g startClk).1 (by rw [hc]; exact hmax) hvalid
  rw [hc] at hsp
  refine ⟨fun inv hinv => (Spaced.mem hsp inv hinv).2.2, ?_, ?_, ?_⟩
  · unfold mainRun
    rcases hshape with ⟨hlog, _⟩ | ⟨inv, hlog, _, _, hf, hlast⟩
    · rw [hlog]
      exact Spaced.chain hsp
    · rw [hlog]
      rw [hlast] at hsp
      cases hrun : (run (mainStartScripts g startClk).1 steps).2 with
      | nil => exact List.chain'_singleton inv
      | cons b rest =>
        rw [hrun] at hsp
        exact List.chain'_cons.2 ⟨by rw [hf]; exact hsp.1, Spaced.chain hsp⟩
  · unfold mainRun
    rcases hshape with ⟨hlog, _⟩ | ⟨inv, hlog, _, hs, hf, hlast⟩
    · rw [hlog]
      exact Spaced.pairwise hsp
    · rw [hlog]
      rw [hlast] at hsp
      refine List.Pairwise.cons ?_ (Spaced.pairwise hsp)
      intro b hb
      obtain ⟨_, i2, _⟩ := Spaced.mem hsp b hb
      rw [hs, hf]
      exact ⟨i2, by omega⟩
  · intro s clk during hlt
    exact dumbDetermineIter_wait s clk during (by simpa [needToRelock] using hlt)

/-- Witness for C6: the worked run, whose script runs start at 0 s, 31 s, 62 s and 100 s,
each at least 30 s after the end of the run before; and the same events read off a clock
that offers every reading of an iteration at the moment of its guards, where the scripts
still start only at 31 s and 61 s, when the cooldown sleep is over. -/
theorem cooldown_between_scripts_witness :
    ValidRun (mainStartScripts exampleGlobals exampleStartClk).1 exampleSteps ∧
    (mainRun exampleGlobals exampleStartClk exampleSteps).2.map
      (fun inv => (inv.script, inv.startedAt, inv.finishedAt)) =
      [(.online, exampleAt 0, exampleAt 1), (.offline, exampleAt 31, exampleAt 32),
       (.online, exampleAt 62, exampleAt 63), (.offline, exampleAt 100, exampleAt 101)] ∧
    (mainRun exampleGlobals exampleStartClk exampleSteps).2.Pairwise (fun a b =>
      exampleGlobals.cooldownBtwnScripts ≤ b.startedAt - a.finishedAt ∧
      exampleGlobals.cooldownBtwnScripts ≤ b.startedAt - a.startedAt) ∧
    ValidRun (mainStartScripts exampleGlobals exampleStartClk).1 exampleEagerSteps ∧
    (mainRun exampleGlobals exampleStartClk exampleEagerSteps).2.map
      (fun inv => (inv.script, inv.startedAt, inv.finishedAt)) =
      [(.online, exampleAt 0, exampleAt 1), (.offline, exampleAt 31, exampleAt 31),
       (.online, exampleAt 61, exampleAt 70)] ∧
    (mainRun exampleGlobals exampleStartClk exampleEagerSteps).2.Pairwise (fun a b =>
      exampleGlobals.cooldownBtwnScripts ≤ b.startedAt - a.finishedAt ∧
      exampleGlobals.cooldownBtwnScripts ≤ b.startedAt - a.startedAt) :=
  ⟨by decide, by decide,
    (cooldown_between_scripts exampleGlobals exampleStartClk exampleSteps (by decide)
      (by decide) (by decide)).2.2.1,
    by decide, by decide,
    (cooldown_between_scripts exampleGlobals exampleStartClk exampleEagerSteps (by decide)
      (by decide) (by decide)).2.2.1⟩

/-! ## Debounce -/

theorem debounce_of_since (now t : Int) (h : DEBOUNCE_PERIOD ≤ since now t) :
    DEBOUNCE_PERIOD ≤ now - t := by
  unfold since maxDuration minDuration at h
  unfold DEBOUNCE_PERIOD Second at *
  dsimp only at h
  split at h
  · omega
  · split at h <;> omega

theorem dispatch_mem (g : Globals) (clk : TickClock) (waited : Bool) :
    ∀ inv ∈ (dispatch g clk waited).2,
      inv.waited = waited ∧ inv.anyOnlineAtStart = g.anyOnline ∧
      inv.lastChangeAtStart = g.anyOnlineLastChange ∧ inv.startedAt = clk.scriptStart := by
  unfold dispatch
  dsimp only
  split
  · simp [startOnlineScript]
  · split
    · simp [startOfflineScript]
    · split
      · simp [startOnlineScript]
      · split
        · simp [startOfflineScript]
        · simp

theorem dumbDetermineIter_mem (g : Globals) (clk : TickClock) (during : List Event) :
    ∀ inv ∈ (dumbDetermineIter g clk during).2,
      DEBOUNCE_PERIOD ≤ since clk.debounceNow g.anyOnlineLastChange ∧
      (inv.waited = false →
        inv.startedAt = clk.scriptStart ∧
        inv.anyOnlineAtStart = g.anyOnline ∧
        inv.lastChangeAtStart = g.anyOnlineLastChange) := by
  unfold dumbDetermineIter
  split
  · simp
  · split
    · simp
    · rename_i hdeb
      have hdeb' : DEBOUNCE_PERIOD ≤ since clk.debounceNow g.anyOnlineLastChange :=
        not_lt.1 hdeb
      split
      · simp
      · split
        · intro inv hinv
          obtain ⟨hw, _, _, _⟩ := dispatch_mem _ _ true inv hinv
          refine ⟨hdeb', ?_⟩
          intro hfalse
          rw [hw] at hfalse
          cases hfalse
        · intro inv hinv
          obtain ⟨_, ha, hl, hs⟩ := dispatch_mem g clk false inv hinv
          exact ⟨hdeb', fun _ => ⟨hs, ha, hl⟩⟩

theorem run_debounce (steps : List Step) (g : Globals) (hvalid : ValidRun g steps) :
    ∀ inv ∈ (run g steps).2, inv.waited = false →
      DEBOUNCE_PERIOD ≤ inv.startedAt - inv.lastChangeAtStart := by
  induction steps generalizing g with
  | nil => simp [run]
  | cons s rest ih =>
    rw [run_cons]
    intro inv hinv hw
    rcases List.mem_append.1 hinv with hmem | hmem
    · cases s with
      | event e => simp [step] at hmem
      | tick clk during =>
        obtain ⟨hclk, _⟩ := hvalid
        obtain ⟨hdeb, hrest⟩ := dumbDetermineIter_mem g clk during inv hmem
        obtain ⟨hs, _, hl⟩ := hrest hw
        have := debounce_of_since _ _ hdeb
        obtain ⟨_, h2, h3, h4, _⟩ := hclk
        rw [hs, hl]
        omega
    · cases s with
      | event e => exact ih (handle g e) hvalid inv hmem hw
      | tick clk during => exact ih _ hvalid.2 inv hmem hw

/-- C5, the claim as stated fails on the worked run: the run is valid, yet the offline
script started at 31 s, one second after the aggregate last flipped (at 30 s, while the
scheduler was sleeping out the cooldown); and the flips at 30 s and at 33 s, three seconds
apart, are each the stamp under which a script was started (at 31 s and at 62 s). -/
theorem debounce_after_wait_counterexample :
    ValidRun (mainStartScripts exampleGlobals exampleStartClk).1 exampleSteps ∧
    ¬ (∀ inv ∈ (run (mainStartScripts exampleGlobals exampleStartClk).1 exampleSteps).2,
        DEBOUNCE_PERIOD ≤ inv.startedAt - inv.lastChangeAtStart) ∧
    (∃ a ∈ (run (mainStartScripts exampleGlobals exampleStartClk).1 exampleSteps).2,
      ∃ b ∈ (run (mainStartScripts exampleGlobals exampleStartClk).1 exampleSteps).2,
        a.script = .offline ∧ a.startedAt = exampleAt 31 ∧ a.lastChangeAtStart = exampleAt 30 ∧
        b.script = .online ∧ b.startedAt = exampleAt 62 ∧ b.lastChangeAtStart = exampleAt 33 ∧
        b.lastChangeAtStart - a.lastChangeAtStart < DEBOUNCE_PERIOD) := by
  decide

/-- C5 as amended: in every valid run of events and scheduler iterations, a script that
the scheduler starts without a cooldown wait starts at least `DEBOUNCE_PERIOD` after
`anyOnlineLastChange`, the stamp of the last flip of the aggregate; and every iteration
that starts a script, with or without a wait, has passed the debounce guard: when the
guard was evaluated at least `DEBOUNCE_PERIOD` had elapsed since the stamp it read. -/
theorem debounce_checked_at_guard (g : Globals) (steps : List Step)
    (hvalid : ValidRun g steps) :
    (∀ inv ∈ (run g steps).2, inv.waited = false →
      DEBOUNCE_PERIOD ≤ inv.startedAt - inv.lastChangeAtStart) ∧
    (∀ (clk : TickClock) (during : List Event), (dumbDetermineIter g clk during).2 ≠ [] →
      DEBOUNCE_PERIOD ≤ clk.debounceNow - g.anyOnlineLastChange) := by
  refine ⟨run_debounce steps g hvalid, ?_⟩
  intro clk during hne
  obtain ⟨inv, hinv⟩ := List.exists_mem_of_ne_nil _ hne
  exact debounce_of_since _ _ (dumbDetermineIter_mem g clk during inv hinv).1

/-- Witness for C5 as amended: in the worked run the script started without a wait is the
last one, at 100 s, thirty seconds after the flip at 70 s. -/
theorem debounce_checked_at_guard_witness :
    ValidRun (mainStartScripts exampleGlobals exampleStartClk).1 exampleSteps ∧
    (run (mainStartScripts exampleGlobals exampleStartClk).1 exampleSteps).2.map
      (fun inv => (inv.waited, inv.startedAt, inv.lastChangeAtStart)) =
      [(true, exampleAt 31, exampleAt 30), (true, exampleAt 62, exampleAt 33),
       (false, exampleAt 100, exampleAt 70)] ∧
    (∀ inv ∈ (run (mainStartScripts exampleGlobals exampleStartClk).1 exampleSteps).2,
      inv.waited = false → DEBOUNCE_PERIOD ≤ inv.startedAt - inv.lastChangeAtStart) :=
  ⟨by decide, by decide,
    (debounce_checked_at_guard (mainStartScripts exampleGlobals exampleStartClk).1 exampleSteps
      (by decide)).1⟩

/-! ## Loading the tracked set -/

theorem splitComma_ne_nil (s : List Char) : splitComma s ≠ [] := by
  induction s with
  | nil => simp [splitComma]
  | cons c cs ih =>
    unfold splitComma
    split
    · simp
    · split <;> simp

theorem splitComma_single (tok : List Char) (h : ',' ∉ tok) : splitComma tok = [tok] := by
  induction tok with
  | nil => rfl
  | cons c cs ih =>
    have hc : c ≠ ',' := fun hc => h (by simp [hc])
    have hcs : ',' ∉ cs := fun hm => h (List.mem_cons_of_mem _ hm)
    simp [splitComma, hc, ih hcs]

theorem splitComma_first (tok s : List Char) (h : ',' ∉ tok) :
    splitComma (tok ++ ',' :: s) = tok :: splitComma s := by
  induction tok with
  | nil => simp [splitComma]
  | cons c cs ih =>
    have hc : c ≠ ',' := fun hc => h (by simp [hc])
    have hcs : ',' ∉ cs := fun hm => h (List.mem_cons_of_mem _ hm)
    simp [splitComma, hc, ih hcs]

theorem intercalate_comma_cons (tok tok' : List Char) (toks : List (List Char)) :
    [','].intercalate (tok :: tok' :: toks) = tok ++ ',' :: [','].intercalate (tok' :: toks) := by
  simp [List.intercalate]

theorem splitComma_intercalate (toks : List (List Char)) (hne : toks ≠ [])
    (hcomma : ∀ tok ∈ toks, ',' ∉ tok) : splitComma ([','].intercalate toks) = toks := by
  induction toks with
  | nil => exact absurd rfl hne
  | cons tok rest ih =>
    cases rest with
    | nil =>
      have : [','].intercalate [tok] = tok := by simp [List.intercalate]
      rw [this]
      exact splitComma_single tok (hcomma tok (List.mem_cons_self _ _))
    | cons tok' rest' =>
      rw [intercalate_comma_cons, splitComma_first _ _ (hcomma tok (List.mem_cons_self _ _))]
      rw [ih (by simp) (fun t ht => hcomma t (List.mem_cons_of_mem _ ht))]

theorem splitComma_no_comma (s : List Char) : ∀ tok ∈ splitComma s, ',' ∉ tok := by
  induction s with
  | nil => simp [splitComma]
  | cons c cs ih =>
    unfold splitComma
    split
    · intro tok htok
      rcases List.mem_cons.1 htok with rfl | htok
      · simp
      · exact ih tok htok
    · rename_i hc
      split
      · rename_i heq
        exact absurd heq (splitComma_ne_nil cs)
      · rename_i tok' toks heq
        rw [heq] at ih
        intro tok htok
        rcases List.mem_cons.1 htok with rfl | htok
        · intro hm
          rcases List.mem_cons.1 hm with hm | hm
          · exact hc hm.symm
          · exact ih tok' (List.mem_cons_self _ _) hm
        · exact ih tok (List.mem_cons_of_mem _ htok)

theorem intercalate_splitComma (s : List Char) : [','].intercalate (splitComma s) = s := by
  induction s with
  | nil => simp [splitComma, List.intercalate]
  | cons c cs ih =>
    unfold splitComma
    split
    · rename_i hc
      cases hsp : splitComma cs with
      | nil => exact absurd hsp (splitComma_ne_nil cs)
      | cons tok' toks =>
        rw [hsp] at ih
        rw [intercalate_comma_cons, ih, hc]
        rfl
    · split
      · rename_i heq
        exact absurd heq (splitComma_ne_nil cs)
      · rename_i tok' toks heq
        rw [heq] at ih
        cases toks with
        | nil =>
          have h1 : [','].intercalate [tok'] = tok' := by simp [List.intercalate]
          have h2 : [','].intercalate [c :: tok'] = c :: tok' := by simp [List.intercalate]
          rw [h1] at ih
          rw [h2, ih]
        | cons tok'' toks' =>
          rw [intercalate_comma_cons] at ih ⊢
          rw [List.cons_append, ih]

theorem mem_setAdd (s : List String) (id x : String) :
    x ∈ setAdd s id ↔ x ∈ s ∨ x = id := by
  unfold setAdd
  split
  · rename_i h
    constructor
    · exact Or.inl
    · rintro (hx | rfl)
      · exact hx
      · exact h
  · simp

theorem nodup_setAdd (s : List String) (id : String) (h : s.Nodup) : (setAdd s id).Nodup := by
  unfold setAdd
  split
  · exact h
  · rename_i hid
    exact List.Nodup.append h (List.nodup_singleton id) (by simpa using hid)

theorem mem_loadId (ids : List String) (tok : List Char) (x : String) :
    x ∈ loadId ids tok ↔ x ∈ ids ∨ (x ≠ "" ∧ trimSpace tok = x.toList) := by
  unfold loadId
  dsimp only
  by_cases h : trimSpace tok = []
  · simp only [h, beq_self_eq_true, if_true]
    constructor
    · exact Or.inl
    · rintro (hx | ⟨hne, heq⟩)
      · exact hx
      · exfalso
        apply hne
        cases x with
        | mk data =>
          simp only [String.toList] at heq
          rw [← heq]
  · have hb : (trimSpace tok == []) = false := by simpa using h
    simp only [hb, Bool.false_eq_true, if_false, mem_setAdd]
    constructor
    · rintro (hx | rfl)
      · exact Or.inl hx
      · refine Or.inr ⟨?_, rfl⟩
        intro hmk
        apply h
        have := congrArg String.toList hmk
        simpa using this
    · rintro (hx | ⟨_, heq⟩)
      · exact Or.inl hx
      · right
        cases x with
        | mk data =>
          simp only [String.toList] at heq
          rw [heq]

theorem mem_foldl_loadId (toks : List (List Char)) (ids : List String) (x : String) :
    x ∈ toks.foldl loadId ids ↔
      x ∈ ids ∨ (x ≠ "" ∧ ∃ tok ∈ toks, trimSpace tok = x.toList) := by
  induction toks generalizing ids with
  | nil => simp
  | cons tok rest ih =>
    simp only [List.foldl_cons, ih, mem_loadId, List.mem_cons, exists_eq_or_imp]
    tauto

theorem nodup_foldl_loadId (toks : List (List Char)) (ids : List String) (h : ids.Nodup) :
    (toks.foldl loadId ids).Nodup := by
  induction toks generalizing ids with
  | nil => exact h
  | cons tok rest ih =>
    simp only [List.foldl_cons]
    apply ih
    unfold loadId
    dsimp only
    split
    · exact h
    · exact nodup_setAdd _ _ h

theorem trimSpace_surrounding (tok : List Char) :
    ∃ pre post : List Char, tok = pre ++ trimSpace tok ++ post ∧
      (∀ c ∈ pre, isSpace c = true) ∧ (∀ c ∈ post, isSpace c = true) ∧
      (∀ c, (trimSpace tok).head? = some c → isSpace c = false) ∧
      (∀ c, (trimSpace tok).getLast? = some c → isSpace c = false) := by
  have hsplit : tok = tok.takeWhile isSpace ++ tok.dropWhile isSpace :=
    (List.takeWhile_append_dropWhile isSpace tok).symm
  have hrev : tok.dropWhile isSpace =
      trimSpace tok ++ ((tok.dropWhile isSpace).reverse.takeWhile isSpace).reverse := by
    have := List.takeWhile_append_dropWhile isSpace (tok.dropWhile isSpace).reverse
    have h2 := congrArg List.reverse this
    rw [List.reverse_append, List.reverse_reverse] at h2
    exact h2.symm
  have hlast : ∀ c, (trimSpace tok).getLast? = some c → isSpace c = false := by
    intro c hc
    unfold trimSpace at hc
    rw [List.getLast?_reverse] at hc
    have := List.head?_dropWhile_not isSpace (tok.dropWhile isSpace).reverse
    rw [hc] at this
    exact this
  refine ⟨tok.takeWhile isSpace, ((tok.dropWhile isSpace).reverse.takeWhile isSpace).reverse,
    ?_, ?_, ?_, ?_, hlast⟩
  · rw [List.append_assoc, ← hrev]
    exact hsplit
  · intro c hc
    exact List.mem_takeWhile_imp hc
  · intro c hc
    exact List.mem_takeWhile_imp (List.mem_reverse.1 hc)
  · intro c hc
    have hhead := List.head?_dropWhile_not isSpace tok
    cases htrim : trimSpace tok with
    | nil => rw [htrim] at hc; cases hc
    | cons d rest =>
      rw [htrim] at hc hrev
      rw [hrev] at hhead
      simp only [List.cons_append, List.head?_cons] at hhead hc
      cases hc
      exact hhead

/-- C10: let `toks` be the comma-separated pieces of the value `env` of
`USERS_IDS_TO_TRACK` (a non-empty list of comma-free pieces that gives `env` back when
joined with commas; there is always such a list).  Starting from an empty tracked set,
`loadIdsToTrack` leaves in `idsToTrack` exactly the non-empty strings that are some piece
with its surrounding white space trimmed, each once; and trimming a piece removes a run of
white space at each end and leaves white space at neither end. -/
theorem loadIdsToTrack_tokens (g : Globals) (env : String) (toks : List (List Char))
    (hempty : g.idsToTrack = []) (hne : toks ≠ []) (hcomma : ∀ tok ∈ toks, ',' ∉ tok)
    (hjoin : [','].intercalate toks = env.toList) :
    (∀ id : String, id ∈ (loadIdsToTrack g env).idsToTrack ↔
      (id ≠ "" ∧ ∃ tok ∈ toks, trimSpace tok = id.toList)) ∧
    (loadIdsToTrack g env).idsToTrack.Nodup ∧
    (∃ toks' : List (List Char), toks' ≠ [] ∧ (∀ tok ∈ toks', ',' ∉ tok) ∧
      [','].intercalate toks' = env.toList) ∧
    (∀ tok ∈ toks, ∃ pre post : List Char, tok = pre ++ trimSpace tok ++ post ∧
      (∀ c ∈ pre, isSpace c = true) ∧ (∀ c ∈ post, isSpace c = true) ∧
      (∀ c, (trimSpace tok).head? = some c → isSpace c = false) ∧
      (∀ c, (trimSpace tok).getLast? = some c → isSpace c = false)) := by
  have hsplit : splitComma env.toList = toks := by
    rw [← hjoin]
    exact splitComma_intercalate toks hne hcomma
  refine ⟨?_, ?_, ?_, fun tok _ => trimSpace_surrounding tok⟩
  · intro id
    simp only [loadIdsToTrack, hsplit, hempty, mem_foldl_loadId, List.not_mem_nil, false_or]
  · simp only [loadIdsToTrack, hsplit, hempty]
    exact nodup_foldl_loadId toks [] List.nodup_nil
  · exact ⟨splitComma env.toList, splitComma_ne_nil _, splitComma_no_comma _,
      intercalate_splitComma _⟩

/-- Witness for C10: `" user1 , ,user2,"` has the pieces `" user1 "`, `" "`, `"user2"` and
`""`, and loads exactly "user1" and "user2"; the empty string loads nothing. -/
theorem loadIdsToTrack_tokens_witness :
    (∀ id : String, id ∈ (loadIdsToTrack initGlobals " user1 , ,user2,").idsToTrack ↔
      (id ≠ "" ∧ ∃ tok ∈ [" user1 ".toList, " ".toList, "user2".toList, "".toList],
        trimSpace tok = id.toList)) ∧
    (loadIdsToTrack initGlobals " user1 , ,user2,").idsToTrack = ["user1", "user2"] ∧
    (loadIdsToTrack initGlobals "").idsToTrack = [] :=
  ⟨(loadIdsToTrack_tokens initGlobals " user1 , ,user2,"
      [" user1 ".toList, " ".toList, "user2".toList, "".toList] rfl (by decide) (by decide)
      (by decide)).1,
    by decide, by decide⟩

/-! ## The stored aggregate agrees with the aggregator -/

theorem areAnyOnline_congr (g g' : Globals) (h1 : g'.requireVc = g.requireVc)
    (h2 : g'.anyInVoiceChannel = g.anyInVoiceChannel)
    (h3 : g'.lastPresenceState = g.lastPresenceState) (h4 : g'.idsToTrack = g.idsToTrack) :
    areAnyOnline g' = areAnyOnline g := by
  simp only [areAnyOnline, h1, h2, h3, h4]

theorem runAnyOnlineCheck_frame (g : Globals) (now : Int) :
    (runAnyOnlineCheck g now).requireVc = g.requireVc ∧
    (runAnyOnlineCheck g now).anyInVoiceChannel = g.anyInVoiceChannel ∧
    (runAnyOnlineCheck g now).lastPresenceState = g.lastPresenceState ∧
    (runAnyOnlineCheck g now).idsToTrack = g.idsToTrack ∧
    (runAnyOnlineCheck g now).voiceChannelId = g.voiceChannelId ∧
    (runAnyOnlineCheck g now).recievedAnyPresenceChange = true := by
  unfold runAnyOnlineCheck
  dsimp only
  split <;> simp

theorem runAnyOnlineCheck_consistent (g : Globals) (now : Int) :
    (runAnyOnlineCheck g now).anyOnline = areAnyOnline (runAnyOnlineCheck g now) := by
  obtain ⟨h1, h2, h3, h4, _, _⟩ := runAnyOnlineCheck_frame g now
  rw [runAnyOnlineCheck_anyOnline, areAnyOnline_congr g _ h1 h2 h3 h4]

theorem SameConfig.refl (g : Globals) : SameConfig g g := ⟨rfl, rfl, rfl⟩

theorem SameConfig.trans {g g' g'' : Globals} (h : SameConfig g g') (h' : SameConfig g' g'') :
    SameConfig g g'' :=
  ⟨h'.1.trans h.1, h'.2.1.trans h.2.1, h'.2.2.trans h.2.2⟩

theorem runAnyOnlineCheck_sameConfig (g : Globals) (now : Int) :
    SameConfig g (runAnyOnlineCheck g now) := by
  obtain ⟨h1, _, _, h4, h5, _⟩ := runAnyOnlineCheck_frame g now
  exact ⟨h4, h5, h1⟩

theorem handle_consistent (g : Globals) (e : Event) (h : g.anyOnline = areAnyOnline g) :
    (handle g e).anyOnline = areAnyOnline (handle g e) ∧ SameConfig g (handle g e) := by
  cases e with
  | presence guildMember now =>
    by_cases ht : guildMember.UserID ∈ g.idsToTrack
    · simp only [handle, presenceUpdate_tracked g guildMember now ht]
      exact ⟨runAnyOnlineCheck_consistent _ now, runAnyOnlineCheck_sameConfig _ now⟩
    · have : presenceUpdate g guildMember now = g := by simp [presenceUpdate, ht]
      simp only [handle, this]
      exact ⟨h, SameConfig.refl g⟩
  | voice discord vs now =>
    by_cases hc : g.voiceChannelId = updateVoiceChannelId vs
    · simp only [handle, voiceChannelUpdate_of_good g discord vs now hc,
        markVoiceChannelPresenceChange]
      exact ⟨runAnyOnlineCheck_consistent _ now, runAnyOnlineCheck_sameConfig _ now⟩
    · simp only [handle, voiceChannelUpdate_of_bad g discord vs now hc]
      exact ⟨h, SameConfig.refl g⟩

theorem stowMember_consistent (api : SnapshotApi) (guildID : String) (g : Globals)
    (member : Member) (h : g.anyOnline = areAnyOnline g) :
    (stowMember api guildID g member).anyOnline = areAnyOnline (stowMember api guildID g member) ∧
    SameConfig g (stowMember api guildID g member) := by
  unfold stowMember
  split
  · exact ⟨h, SameConfig.refl g⟩
  · split
    · exact ⟨h, SameConfig.refl g⟩
    · split
      · exact ⟨h, SameConfig.refl g⟩
      · exact ⟨runAnyOnlineCheck_consistent _ _, runAnyOnlineCheck_sameConfig _ _⟩

theorem stowVoice_consistent (discord : Session) (api : SnapshotApi) (g : Globals)
    (guildID : String) (h : g.anyOnline = areAnyOnline g) :
    (stowVoice discord api g guildID).anyOnline = areAnyOnline (stowVoice discord api g guildID) ∧
    SameConfig g (stowVoice discord api g guildID) := by
  unfold stowVoice
  split
  · simp only [markVoiceChannelPresenceChange]
    exact ⟨runAnyOnlineCheck_consistent _ _, runAnyOnlineCheck_sameConfig _ _⟩
  · exact ⟨h, SameConfig.refl g⟩

theorem foldl_stowMember_consistent (api : SnapshotApi) (guildID : String)
    (members : List Member) (g : Globals) (h : g.anyOnline = areAnyOnline g) :
    (members.foldl (stowMember api guildID) g).anyOnline =
      areAnyOnline (members.foldl (stowMember api guildID) g) ∧
    SameConfig g (members.foldl (stowMember api guildID) g) := by
  induction members generalizing g with
  | nil => exact ⟨h, SameConfig.refl g⟩
  | cons member rest ih =>
    obtain ⟨h1, c1⟩ := stowMember_consistent api guildID g member h
    obtain ⟨h2, c2⟩ := ih (stowMember api guildID g member) h1
    exact ⟨h2, c1.trans c2⟩

theorem stowGuild_consistent (discord : Session) (api : SnapshotApi) (g : Globals)
    (guild : Guild) (h : g.anyOnline = areAnyOnline g) :
    (stowGuild discord api g guild).anyOnline = areAnyOnline (stowGuild discord api g guild) ∧
    SameConfig g (stowGuild discord api g guild) := by
  unfold stowGuild
  split
  · exact ⟨h, SameConfig.refl g⟩
  · rename_i members _
    dsimp only
    split
    · obtain ⟨h1, c1⟩ := foldl_stowMember_consistent api guild.ID members g h
      obtain ⟨h2, c2⟩ := stowVoice_consistent discord api _ guild.ID h1
      exact ⟨h2, c1.trans c2⟩
    · exact stowVoice_consistent discord api g guild.ID h

theorem stowStatuses_consistent (discord : Session) (api : SnapshotApi) (g : Globals)
    (h : g.anyOnline = areAnyOnline g) :
    (stowStatuses g discord api).anyOnline = areAnyOnline (stowStatuses g discord api) ∧
    SameConfig g (stowStatuses g discord api) := by
  unfold stowStatuses
  generalize discord.Guilds = guilds
  induction guilds generalizing g with
  | nil => exact ⟨h, SameConfig.refl g⟩
  | cons guild rest ih =>
    obtain ⟨h1, c1⟩ := stowGuild_consistent discord api g guild h
    obtain ⟨h2, c2⟩ := ih (stowGuild discord api g guild) h1
    exact ⟨h2, c1.trans c2⟩

theorem handled_consistent (g : Globals) (x : Handled) (h : g.anyOnline = areAnyOnline g) :
    (handled g x).anyOnline = areAnyOnline (handled g x) ∧ SameConfig g (handled g x) := by
  cases x with
  | live e => exact handle_consistent g e h
  | seedPresence api guildID member => exact stowMember_consistent api guildID g member h
  | seedVoice discord api guildID => exact stowVoice_consistent discord api g guildID h
  | snapshot discord api => exact stowStatuses_consistent discord api g h

theorem foldl_handled_consistent (xs : List Handled) (g : Globals)
    (h : g.anyOnline = areAnyOnline g) :
    (xs.foldl handled g).anyOnline = areAnyOnline (xs.foldl handled g) ∧
    SameConfig g (xs.foldl handled g) := by
  induction xs generalizing g with
  | nil => exact ⟨h, SameConfig.refl g⟩
  | cons x rest ih =>
    obtain ⟨h1, c1⟩ := handled_consistent g x h
    obtain ⟨h2, c2⟩ := ih (handled g x) h1
    exact ⟨h2, c1.trans c2⟩

theorem areAnyOnline_initial (g : Globals) (hstore : g.lastPresenceState = [])
    (hvoice : g.anyInVoiceChannel = false) : areAnyOnline g = false := by
  have hscan : ∀ ids : List String, scanPresence [] ids = false := by
    intro ids
    induction ids with
    | nil => rfl
    | cons u rest ih => simpa [scanPresence, mapIndex] using ih
  cases hvc : g.requireVc <;> simp [areAnyOnline, hvc, hvoice, hstore, hscan]

/-- C18: start from a state with an empty presence store, `anyInVoiceChannel` false and
`anyOnline` false, and handle any sequence of presence events, voice events and bootstrap
seeds (single presence or voice seeds, or whole runs of `stowStatuses`) one at a time.
In the state reached, the stored `anyOnline` equals `areAnyOnline` on the presence store
and voice flag of that state; the tracked set is the one of the start. -/
theorem aggregate_consistent (g0 : Globals) (xs : List Handled)
    (hstore : g0.lastPresenceState = []) (hvoice : g0.anyInVoiceChannel = false)
    (hagg : g0.anyOnline = false) :
    (xs.foldl handled g0).anyOnline = areAnyOnline (xs.foldl handled g0) ∧
    (xs.foldl handled g0).idsToTrack = g0.idsToTrack := by
  have h0 : g0.anyOnline = areAnyOnline g0 := by
    rw [hagg, areAnyOnline_initial g0 hstore hvoice]
  obtain ⟨h, c⟩ := foldl_handled_consistent xs g0 h0
  exact ⟨h, c.1⟩

/-- Witness for C18: with "u1" tracked and channel "123" configured, after the worked
sequence of seeds and events the stored aggregate agrees with `areAnyOnline`. -/
theorem aggregate_consistent_witness :
    (exampleHandled.foldl handled
      { initGlobals with idsToTrack := ["u1"], voiceChannelId := "123" }).anyOnline =
    areAnyOnline (exampleHandled.foldl handled
      { initGlobals with idsToTrack := ["u1"], voiceChannelId := "123" }) ∧
    (exampleHandled.foldl handled
      { initGlobals with idsToTrack := ["u1"], voiceChannelId := "123" }).anyOnline = true :=
  ⟨(aggregate_consistent { initGlobals with idsToTrack := ["u1"], voiceChannelId := "123" }
      exampleHandled rfl rfl rfl).1, by decide⟩

/-! ## Voice-only mode ignores presence -/

theorem foldl_handle_consistent (events : List Event) (g : Globals)
    (h : g.anyOnline = areAnyOnline g) :
    (events.foldl handle g).anyOnline = areAnyOnline (events.foldl handle g) ∧
    SameConfig g (events.foldl handle g) := by
  induction events generalizing g with
  | nil => exact ⟨h, SameConfig.refl g⟩
  | cons e rest ih =>
    obtain ⟨h1, c1⟩ := handle_consistent g e h
    obtain ⟨h2, c2⟩ := ih (handle g e) h1
    exact ⟨h2, c1.trans c2⟩

theorem areAnyOnline_vcOnly (g : Globals) (hvc : g.requireVc = true) :
    areAnyOnline g = g.anyInVoiceChannel := by
  cases hin : g.anyInVoiceChannel <;> simp [areAnyOnline, hvc, hin]

theorem presenceUpdate_requireVc (g : Globals) (guildMember : PresenceUpdate) (now : Int)
    (hvc : g.requireVc = true) (h : g.anyOnline = areAnyOnline g) :
    (presenceUpdate g guildMember now).anyOnline = g.anyOnline ∧
    (presenceUpdate g guildMember now).anyOnlineLastChange = g.anyOnlineLastChange := by
  by_cases ht : guildMember.UserID ∈ g.idsToTrack
  · rw [presenceUpdate_tracked g guildMember now ht]
    have hs : areAnyOnline (storePresence g guildMember) = (storePresence g guildMember).anyOnline := by
      rw [areAnyOnline_vcOnly _ (by simpa [storePresence] using hvc)]
      have : (storePresence g guildMember).anyOnline = g.anyOnline := rfl
      rw [this, h, areAnyOnline_vcOnly g hvc]
      rfl
    obtain ⟨_, hkeep, _⟩ := runAnyOnlineCheck_flip (storePresence g guildMember) now
    exact hkeep hs
  · have : presenceUpdate g guildMember now = g := by simp [presenceUpdate, ht]
    rw [this]
    exact ⟨rfl, rfl⟩

/-- C11: with vc-only on, start from the initial aggregate (`anyOnline` and
`anyInVoiceChannel` false) and handle any sequence of presence and voice events one at a
time.  In the state reached, a further presence event, for any user and any status, leaves
`anyOnline` and `anyOnlineLastChange` as they are.  (With a voice channel configured,
`main` does not even register the presence handler in this mode.) -/
theorem requireVc_ignores_presence (g0 : Globals) (events : List Event)
    (guildMember : PresenceUpdate) (now : Int) (hvc : g0.requireVc = true)
    (hvoice : g0.anyInVoiceChannel = false) (hagg : g0.anyOnline = false) :
    (presenceUpdate (events.foldl handle g0) guildMember now).anyOnline =
      (events.foldl handle g0).anyOnline ∧
    (presenceUpdate (events.foldl handle g0) guildMember now).anyOnlineLastChange =
      (events.foldl handle g0).anyOnlineLastChange ∧
    (g0.voiceChannelId ≠ "" → (registerHandlers g0).presenceUpdate = false) := by
  have h0 : g0.anyOnline = areAnyOnline g0 := by
    rw [hagg, areAnyOnline_vcOnly g0 hvc, hvoice]
  obtain ⟨h, c⟩ := foldl_handle_consistent events g0 h0
  obtain ⟨h1, h2⟩ := presenceUpdate_requireVc (events.foldl handle g0) guildMember now
    (c.2.2.trans hvc) h
  refine ⟨h1, h2, ?_⟩
  intro hne
  simp [registerHandlers, hne, hvc]

/-- Witness for C11: in the voice scenario "u1" has joined channel "123"; an "offline"
report of "u1" leaves the aggregate true and its stamp at 2 s. -/
theorem requireVc_ignores_presence_witness :
    (presenceUpdate ([Event.voice rosterJoined joinEvent (exampleAt 2)].foldl handle voiceGlobals)
      ⟨"u1", "offline"⟩ (exampleAt 5)).anyOnline = true ∧
    (presenceUpdate ([Event.voice rosterJoined joinEvent (exampleAt 2)].foldl handle voiceGlobals)
      ⟨"u1", "offline"⟩ (exampleAt 5)).anyOnlineLastChange = exampleAt 2 :=
  ⟨(requireVc_ignores_presence voiceGlobals [Event.voice rosterJoined joinEvent (exampleAt 2)]
      ⟨"u1", "offline"⟩ (exampleAt 5) rfl rfl rfl).1.trans (by decide),
   (requireVc_ignores_presence voiceGlobals [Event.voice rosterJoined joinEvent (exampleAt 2)]
      ⟨"u1", "offline"⟩ (exampleAt 5) rfl rfl rfl).2.1.trans (by decide)⟩

/-! ## The event-observed flag -/

theorem handle_recieved (g : Globals) (e : Event) (h : g.recievedAnyPresenceChange = true) :
    (handle g e).recievedAnyPresenceChange = true := by
  cases e with
  | presence guildMember now =>
    by_cases ht : guildMember.UserID ∈ g.idsToTrack
    · simp only [handle, presenceUpdate_tracked g guildMember now ht]
      exact (runAnyOnlineCheck_frame _ now).2.2.2.2.2
    · simpa [handle, presenceUpdate, ht] using h
  | voice discord vs now =>
    by_cases hc : g.voiceChannelId = updateVoiceChannelId vs
    · simp only [handle, voiceChannelUpdate_of_good g discord vs now hc,
        markVoiceChannelPresenceChange]
      exact (runAnyOnlineCheck_frame _ now).2.2.2.2.2
    · simpa [handle, voiceChannelUpdate_of_bad g discord vs now hc] using h

theorem foldl_handle_recieved (events : List Event) (g : Globals)
    (h : g.recievedAnyPresenceChange = true) :
    (events.foldl handle g).recievedAnyPresenceChange = true := by
  induction events generalizing g with
  | nil => exact h
  | cons e rest ih => exact ih (handle g e) (handle_recieved g e h)

theorem dispatch_recieved (g : Globals) (clk : TickClock) (waited : Bool) :
    (dispatch g clk waited).1.recievedAnyPresenceChange = g.recievedAnyPresenceChange ∧
    (dispatch g clk waited).1.anyOnline = g.anyOnline := by
  unfold dispatch
  dsimp only
  split
  · exact ⟨rfl, rfl⟩
  · split
    · exact ⟨rfl, rfl⟩
    · split
      · exact ⟨rfl, rfl⟩
      · split
        · exact ⟨rfl, rfl⟩
        · exact ⟨rfl, rfl⟩

theorem dumbDetermineIter_recieved (g : Globals) (clk : TickClock) (during : List Event)
    (h : g.recievedAnyPresenceChange = true) :
    (dumbDetermineIter g clk during).1.recievedAnyPresenceChange = true := by
  unfold dumbDetermineIter
  split
  · exact h
  · split
    · exact h
    · split
      · exact h
      · split
        · rw [(dispatch_recieved _ _ true).1]
          exact foldl_handle_recieved during g h
        · rw [(dispatch_recieved _ clk false).1]
          exact h

theorem run_recieved (steps : List Step) (g : Globals)
    (h : g.recievedAnyPresenceChange = true) :
    (run g steps).1.recievedAnyPresenceChange = true := by
  induction steps generalizing g with
  | nil => exact h
  | cons s rest ih =>
    rw [run_cons]
    apply ih
    cases s with
    | event e => exact handle_recieved g e h
    | tick clk during => exact dumbDetermineIter_recieved g clk during h

theorem stowMember_recieved (api : SnapshotApi) (guildID : String) (g : Globals)
    (member : Member) (h : g.recievedAnyPresenceChange = true) :
    (stowMember api guildID g member).recievedAnyPresenceChange = true := by
  unfold stowMember
  split
  · exact h
  · split
    · exact h
    · split
      · exact h
      · exact (runAnyOnlineCheck_frame _ _).2.2.2.2.2

theorem foldl_stowMember_recieved (api : SnapshotApi) (guildID : String)
    (members : List Member) (g : Globals) (h : g.recievedAnyPresenceChange = true) :
    (members.foldl (stowMember api guildID) g).recievedAnyPresenceChange = true := by
  induction members generalizing g with
  | nil => exact h
  | cons member rest ih => exact ih _ (stowMember_recieved api guildID g member h)

theorem stowVoice_recieved (discord : Session) (api : SnapshotApi) (g : Globals)
    (guildID : String) (h : g.recievedAnyPresenceChange = true) :
    (stowVoice discord api g guildID).recievedAnyPresenceChange = true := by
  unfold stowVoice
  split
  · exact (runAnyOnlineCheck_frame _ _).2.2.2.2.2
  · exact h

theorem stowStatuses_recieved (discord : Session) (api : SnapshotApi) (g : Globals)
    (h : g.recievedAnyPresenceChange = true) :
    (stowStatuses g discord api).recievedAnyPresenceChange = true := by
  unfold stowStatuses
  generalize discord.Guilds = guilds
  induction guilds generalizing g with
  | nil => exact h
  | cons guild rest ih =>
    apply ih
    unfold stowGuild
    split
    · exact h
    · rename_i members _
      dsimp only
      apply stowVoice_recieved
      split
      · exact foldl_stowMember_recieved api guild.ID members g h
      · exact h

theorem foldl_handled_recieved (xs : List Handled) (g : Globals)
    (h : g.recievedAnyPresenceChange = true) :
    (xs.foldl handled g).recievedAnyPresenceChange = true := by
  induction xs generalizing g with
  | nil => exact h
  | cons x rest ih =>
    apply ih
    cases x with
    | live e => exact handle_recieved g e h
    | seedPresence api guildID member => exact stowMember_recieved api guildID g member h
    | seedVoice discord api guildID => exact stowVoice_recieved discord api g guildID h
    | snapshot discord api => exact stowStatuses_recieved discord api g h

/-- C12, the claim as stated fails: a presence event for the untracked user "user2"
leaves `recievedAnyPresenceChange` false, and so does a voice event about channel "456"
when the configured channel is "123". -/
theorem recieved_ignored_event_counterexample :
    (presenceUpdate { initGlobals with idsToTrack := ["user1"] } ⟨"user2", "online"⟩
      (exampleAt 2)).recievedAnyPresenceChange = false ∧
    (voiceChannelUpdate voiceGlobals rosterMoved moveEvent
      (exampleAt 2)).recievedAnyPresenceChange = false := by
  decide

/-- C12 as amended: after a presence event for a tracked user and after a voice event
whose effective channel is the configured `voiceChannelId`, `recievedAnyPresenceChange`
is true, whether or not the aggregate changed; a presence event for an untracked user and
a voice event about another channel leave the flag as it was; and once the flag is true it
stays true through every event, seed, scheduler iteration and script call. -/
theorem recieved_flag (g : Globals) (guildMember : PresenceUpdate) (discord : Session)
    (vs : VoiceStateUpdate) (now : Int) :
    (guildMember.UserID ∈ g.idsToTrack →
      (presenceUpdate g guildMember now).recievedAnyPresenceChange = true) ∧
    (g.voiceChannelId = updateVoiceChannelId vs →
      (voiceChannelUpdate g discord vs now).recievedAnyPresenceChange = true) ∧
    (guildMember.UserID ∉ g.idsToTrack →
      (presenceUpdate g guildMember now).recievedAnyPresenceChange =
        g.recievedAnyPresenceChange) ∧
    (g.voiceChannelId ≠ updateVoiceChannelId vs →
      (voiceChannelUpdate g discord vs now).recievedAnyPresenceChange =
        g.recievedAnyPresenceChange) ∧
    (g.recievedAnyPresenceChange = true →
      (∀ steps : List Step, (run g steps).1.recievedAnyPresenceChange = true) ∧
      (∀ xs : List Handled, (xs.foldl handled g).recievedAnyPresenceChange = true) ∧
      (∀ c : ScriptCall, (callScript g c).recievedAnyPresenceChange = true)) := by
  refine ⟨?_, ?_, ?_, ?_, ?_⟩
  · intro ht
    rw [presenceUpdate_tracked g guildMember now ht]
    exact (runAnyOnlineCheck_frame _ now).2.2.2.2.2
  · intro hc
    rw [voiceChannelUpdate_of_good g discord vs now hc]
    exact (runAnyOnlineCheck_frame _ now).2.2.2.2.2
  · intro ht
    simp [presenceUpdate, ht]
  · intro hc
    rw [voiceChannelUpdate_of_bad g discord vs now hc]
  · intro h
    refine ⟨fun steps => run_recieved steps g h, fun xs => foldl_handled_recieved xs g h, ?_⟩
    intro c
    unfold callScript
    cases c.script
    · exact h
    · exact h

/-- Witness for C12 as amended: the "idle" report of the tracked "user1" sets the flag
although the aggregate was and stays true. -/
theorem recieved_flag_witness :
    (presenceUpdate { initGlobals with idsToTrack := ["user1"], anyOnline := true,
                                       lastPresenceState := [("user1", "online")] }
      ⟨"user1", "idle"⟩ (exampleAt 2)).recievedAnyPresenceChange = true ∧
    (presenceUpdate { initGlobals with idsToTrack := ["user1"], anyOnline := true,
                                       lastPresenceState := [("user1", "online")] }
      ⟨"user1", "idle"⟩ (exampleAt 2)).anyOnline = true :=
  ⟨(recieved_flag { initGlobals with idsToTrack := ["user1"], anyOnline := true,
                                     lastPresenceState := [("user1", "online")] }
      ⟨"user1", "idle"⟩ rosterLeft joinEvent (exampleAt 2)).1 (by decide), by decide⟩

/-! ## The two script flags exclude each other -/

theorem callScript_flags (g : Globals) (c : ScriptCall) :
    (callScript g c).onlineScriptRan = decide (c.script = .online) ∧
    (callScript g c).offlineScriptRan = decide (c.script = .offline) := by
  unfold callScript
  cases hs : c.script
  · exact ⟨rfl, rfl⟩
  · exact ⟨rfl, rfl⟩

theorem dispatch_exclusive (g : Globals) (clk : TickClock) (waited : Bool)
    (h : ¬(g.onlineScriptRan = true ∧ g.offlineScriptRan = true)) :
    ¬((dispatch g clk waited).1.onlineScriptRan = true ∧
      (dispatch g clk waited).1.offlineScriptRan = true) := by
  unfold dispatch
  dsimp only
  split
  · simp [startOnlineScript, runOnlineScript]
  · split
    · simp [startOfflineScript, runOfflineScript]
    · split
      · simp [startOnlineScript, runOnlineScript]
      · split
        · simp [startOfflineScript, runOfflineScript]
        · exact h

theorem step_exclusive (g : Globals) (s : Step)
    (h : ¬(g.onlineScriptRan = true ∧ g.offlineScriptRan = true)) :
    ¬((step g s).1.onlineScriptRan = true ∧ (step g s).1.offlineScriptRan = true) := by
  cases s with
  | event e =>
    obtain ⟨e1, e2, _, _⟩ := handle_script g e
    simp only [step, e1, e2]
    exact h
  | tick clk during =>
    simp only [step]
    unfold dumbDetermineIter
    split
    · exact h
    · split
      · exact h
      · split
        · exact h
        · split
          · apply dispatch_exclusive
            obtain ⟨f1, f2, _, _⟩ := foldl_handle_script during g
            rw [f1, f2]
            exact h
          · exact dispatch_exclusive g clk false h

theorem run_exclusive (steps : List Step) (g : Globals)
    (h : ¬(g.onlineScriptRan = true ∧ g.offlineScriptRan = true)) :
    ¬((run g steps).1.onlineScriptRan = true ∧ (run g steps).1.offlineScriptRan = true) := by
  induction steps generalizing g with
  | nil => exact h
  | cons s rest ih =>
    rw [run_cons]
    exact ih (step g s).1 (step_exclusive g s h)

theorem foldl_callScript_exclusive (calls : List ScriptCall) (g : Globals)
    (h : ¬(g.onlineScriptRan = true ∧ g.offlineScriptRan = true)) :
    ¬((calls.foldl callScript g).onlineScriptRan = true ∧
      (calls.foldl callScript g).offlineScriptRan = true) := by
  induction calls generalizing g with
  | nil => exact h
  | cons c rest ih =>
    apply ih
    obtain ⟨h1, h2⟩ := callScript_flags g c
    rw [h1, h2]
    cases c.script <;> simp

/-- C13: start with both script flags false and make any sequence of `runOnlineScript` and
`runOfflineScript` calls: in the state reached at most one of `onlineScriptRan` and
`offlineScriptRan` is true.  The same holds along every run of the program from the
start-up scripts through events and scheduler iterations.  Right after `runOnlineScript`,
`onlineScriptRan` is true and `offlineScriptRan` false; right after `runOfflineScript` it
is the other way round. -/
theorem script_flags_exclusive (g0 : Globals) (hon : g0.onlineScriptRan = false)
    (hoff : g0.offlineScriptRan = false) :
    (∀ calls : List ScriptCall,
      ¬((calls.foldl callScript g0).onlineScriptRan = true ∧
        (calls.foldl callScript g0).offlineScriptRan = true)) ∧
    (∀ (startClk : TickClock) (steps : List Step),
      ¬((mainRun g0 startClk steps).1.onlineScriptRan = true ∧
        (mainRun g0 startClk steps).1.offlineScriptRan = true)) ∧
    (∀ (g : Globals) (err : Bool) (finishedAt : Int),
      (runOnlineScript g err finishedAt).onlineScriptRan = true ∧
      (runOnlineScript g err finishedAt).offlineScriptRan = false ∧
      (runOfflineScript g err finishedAt).onlineScriptRan = false ∧
      (runOfflineScript g err finishedAt).offlineScriptRan = true) := by
  have h0 : ¬(g0.onlineScriptRan = true ∧ g0.offlineScriptRan = true) := by
    rw [hon, hoff]
    simp
  refine ⟨fun calls => foldl_callScript_exclusive calls g0 h0, ?_, ?_⟩
  · intro startClk steps
    unfold mainRun
    apply run_exclusive
    unfold mainStartScripts
    split
    · simp [startOnlineScript, runOnlineScript]
    · split
      · simp [startOfflineScript, runOfflineScript]
      · exact h0
  · intro g err finishedAt
    exact ⟨rfl, rfl, rfl, rfl⟩

/-- Witness for C13: from the initial globals, an online call, an offline call and an
online call leave `onlineScriptRan` true and `offlineScriptRan` false. -/
theorem script_flags_exclusive_witness :
    ([⟨.online, false, exampleAt 1⟩, ⟨.offline, true, exampleAt 40⟩,
      ⟨.online, false, exampleAt 80⟩].foldl callScript initGlobals).onlineScriptRan = true ∧
    ¬(([⟨.online, false, exampleAt 1⟩, ⟨.offline, true, exampleAt 40⟩,
        ⟨.online, false, exampleAt 80⟩].foldl callScript initGlobals).onlineScriptRan = true ∧
      ([⟨.online, false, exampleAt 1⟩, ⟨.offline, true, exampleAt 40⟩,
        ⟨.online, false, exampleAt 80⟩].foldl callScript initGlobals).offlineScriptRan = true) :=
  ⟨by decide, (script_flags_exclusive initGlobals rfl rfl).1 _⟩

/-! ## The voice seeding of the snapshot -/

theorem stowMember_sameConfig (api : SnapshotApi) (guildID : String) (g : Globals)
    (member : Member) : SameConfig g (stowMember api guildID g member) := by
  unfold stowMember
  split
  · exact SameConfig.refl g
  · split
    · exact SameConfig.refl g
    · split
      · exact SameConfig.refl g
      · exact runAnyOnlineCheck_sameConfig _ _

theorem foldl_stowMember_sameConfig (api : SnapshotApi) (guildID : String)
    (members : List Member) (g : Globals) :
    SameConfig g (members.foldl (stowMember api guildID) g) := by
  induction members generalizing g with
  | nil => exact SameConfig.refl g
  | cons member rest ih =>
    exact (stowMember_sameConfig api guildID g member).trans (ih _)

theorem stowVoice_anyInVoiceChannel (discord : Session) (api : SnapshotApi) (g : Globals)
    (guildID : String) (hv : g.voiceChannelId ≠ "") :
    (stowVoice discord api g guildID).anyInVoiceChannel =
      haveAnyTracked g.idsToTrack (getMembersInVoiceChannel discord guildID g.voiceChannelId) ∧
    (stowVoice discord api g guildID).anyOnline =
      areAnyOnline (stowVoice discord api g guildID) := by
  unfold stowVoice
  have hb : (g.voiceChannelId != "") = true := by simpa using hv
  simp only [hb, if_true, markVoiceChannelPresenceChange]
  exact ⟨(runAnyOnlineCheck_frame _ _).2.1, runAnyOnlineCheck_consistent _ _⟩

/-- The snapshot of a single guild whose member list the platform delivers seeds the
voice flag with the occupancy of the configured channel in that guild. -/
theorem stowStatuses_single (g : Globals) (guild : Guild) (api : SnapshotApi)
    (members : List Member) (hm : api.guildMembers guild.ID = some members)
    (hv : g.voiceChannelId ≠ "") :
    (stowStatuses g ⟨[guild]⟩ api).anyInVoiceChannel =
      haveAnyTracked g.idsToTrack
        (getMembersInVoiceChannel ⟨[guild]⟩ guild.ID g.voiceChannelId) ∧
    (stowStatuses g ⟨[guild]⟩ api).anyOnline = areAnyOnline (stowStatuses g ⟨[guild]⟩ api) := by
  simp only [stowStatuses, List.foldl_cons, List.foldl_nil, stowGuild, hm]
  by_cases hvc : g.requireVc = true
  · simp only [hvc, Bool.not_true, Bool.false_eq_true, if_false]
    exact stowVoice_anyInVoiceChannel _ api g guild.ID hv
  · have hvc' : g.requireVc = false := by simpa using hvc
    simp only [hvc', Bool.not_false, if_true]
    obtain ⟨c1, c2, _⟩ := foldl_stowMember_sameConfig api guild.ID members g
    have := stowVoice_anyInVoiceChannel ⟨[guild]⟩ api
      (members.foldl (stowMember api guild.ID) g) guild.ID (by rw [c2]; exact hv)
    rw [c1, c2] at this
    exact this

/-- C14, the code at the failing input: the voice channel "123" is configured, "u1" is
tracked, the bot has joined guild "A", where "u1" sits in channel "123", and guild "B".
`stowStatuses` seeds the voice flag once per guild, each seed overwriting the one before:
with "A" processed before "B" the flag and the aggregate end false although "u1" occupies
the channel; with "B" processed before "A" they end true. -/
theorem stowStatuses_last_guild_wins :
    haveAnyTracked voiceGlobals.idsToTrack
      (getMembersInVoiceChannel guildsAB "A" voiceGlobals.voiceChannelId) = true ∧
    (stowStatuses voiceGlobals guildsAB exampleApi).anyInVoiceChannel = false ∧
    (stowStatuses voiceGlobals guildsAB exampleApi).anyOnline = false ∧
    (stowStatuses voiceGlobals guildsBA exampleApi).anyInVoiceChannel = true ∧
    (stowStatuses voiceGlobals guildsBA exampleApi).anyOnline = true := by
  decide

/-! ## Handlers and seeds work on the aggregate part only -/

theorem areAnyOnline_aggView (g g' : Globals) (h : aggView g = aggView g') :
    areAnyOnline g = areAnyOnline g' := by
  simp only [aggView, Prod.mk.injEq] at h
  obtain ⟨h1, h2, _, h4, h5, _⟩ := h
  exact areAnyOnline_congr g' g h1 h5 h4 h2

theorem aggView_runAnyOnlineCheck (g : Globals) (now : Int) :
    aggView (runAnyOnlineCheck g now) =
      (g.requireVc, g.idsToTrack, g.voiceChannelId, g.lastPresenceState, g.anyInVoiceChannel,
        areAnyOnline g, (if areAnyOnline g = g.anyOnline then g.anyOnlineLastChange else now),
        true) := by
  obtain ⟨f1, f2, f3, f4, f5, f6⟩ := runAnyOnlineCheck_frame g now
  simp only [aggView, f1, f2, f3, f4, f5, f6, runAnyOnlineCheck_anyOnline,
    runAnyOnlineCheck_lastChange]

theorem runAnyOnlineCheck_aggView (g g' : Globals) (now : Int) (h : aggView g = aggView g') :
    aggView (runAnyOnlineCheck g now) = aggView (runAnyOnlineCheck g' now) := by
  have ha := areAnyOnline_aggView g g' h
  simp only [aggView, Prod.mk.injEq] at h
  obtain ⟨h1, h2, h3, h4, h5, h6, h7, h8⟩ := h
  rw [aggView_runAnyOnlineCheck, aggView_runAnyOnlineCheck, ha, h1, h2, h3, h4, h5, h6, h7]

theorem runAnyOnlineCheck_scriptView (g : Globals) (now : Int) :
    scriptView (runAnyOnlineCheck g now) = scriptView g := by
  obtain ⟨h1, h2, h3, h4⟩ := runAnyOnlineCheck_script g now
  simp only [scriptView, h1, h2, h3, h4]

theorem stowMember_aggView (api : SnapshotApi) (guildID : String) (g g' : Globals)
    (member : Member) (h : aggView g = aggView g') :
    aggView (stowMember api guildID g member) = aggView (stowMember api guildID g' member) ∧
    scriptView (stowMember api guildID g member) = scriptView g := by
  have h' := h
  simp only [aggView, Prod.mk.injEq] at h'
  obtain ⟨h1, h2, h3, h4, h5, h6, h7, h8⟩ := h'
  unfold stowMember
  rw [h2, h4]
  split
  · exact ⟨h, rfl⟩
  · split
    · exact ⟨h, rfl⟩
    · split
      · exact ⟨h, rfl⟩
      · refine ⟨runAnyOnlineCheck_aggView _ _ _ ?_, runAnyOnlineCheck_scriptView _ _⟩
        simp [aggView, h1, h2, h3, h5, h6, h7, h8]

theorem foldl_stowMember_aggView (api : SnapshotApi) (guildID : String)
    (members : List Member) (g g' : Globals) (h : aggView g = aggView g') :
    aggView (members.foldl (stowMember api guildID) g) =
      aggView (members.foldl (stowMember api guildID) g') ∧
    scriptView (members.foldl (stowMember api guildID) g) = scriptView g := by
  induction members generalizing g g' with
  | nil => exact ⟨h, rfl⟩
  | cons member rest ih =>
    obtain ⟨a1, s1⟩ := stowMember_aggView api guildID g g' member h
    obtain ⟨a2, s2⟩ := ih _ _ a1
    exact ⟨a2, s2.trans s1⟩

theorem stowVoice_aggView (discord : Session) (api : SnapshotApi) (g g' : Globals)
    (guildID : String) (h : aggView g = aggView g') :
    aggView (stowVoice discord api g guildID) = aggView (stowVoice discord api g' guildID) ∧
    scriptView (stowVoice discord api g guildID) = scriptView g := by
  have h' := h
  simp only [aggView, Prod.mk.injEq] at h'
  obtain ⟨h1, h2, h3, h4, h5, h6, h7, h8⟩ := h'
  unfold stowVoice
  rw [h2, h3]
  split
  · simp only [markVoiceChannelPresenceChange]
    refine ⟨runAnyOnlineCheck_aggView _ _ _ ?_, runAnyOnlineCheck_scriptView _ _⟩
    simp [aggView, h1, h2, h3, h4, h6, h7, h8]
  · exact ⟨h, rfl⟩

theorem stowGuild_aggView (discord : Session) (api : SnapshotApi) (g g' : Globals)
    (guild : Guild) (h : aggView g = aggView g') :
    aggView (stowGuild discord api g guild) = aggView (stowGuild discord api g' guild) ∧
    scriptView (stowGuild discord api g guild) = scriptView g := by
  have h1 : g.requireVc = g'.requireVc := by
    simp only [aggView, Prod.mk.injEq] at h
    exact h.1
  unfold stowGuild
  rw [h1]
  split
  · exact ⟨h, rfl⟩
  · rename_i members _
    dsimp only
    split
    · obtain ⟨a1, s1⟩ := foldl_stowMember_aggView api guild.ID members g g' h
      obtain ⟨a2, s2⟩ := stowVoice_aggView discord api _ _ guild.ID a1
      exact ⟨a2, s2.trans s1⟩
    · exact stowVoice_aggView discord api g g' guild.ID h

theorem stowStatuses_aggView (discord : Session) (api : SnapshotApi) (g g' : Globals)
    (h : aggView g = aggView g') :
    aggView (stowStatuses g discord api) = aggView (stowStatuses g' discord api) ∧
    scriptView (stowStatuses g discord api) = scriptView g := by
  unfold stowStatuses
  generalize discord.Guilds = guilds
  induction guilds generalizing g g' with
  | nil => exact ⟨h, rfl⟩
  | cons guild rest ih =>
    obtain ⟨a1, s1⟩ := stowGuild_aggView discord api g g' guild h
    obtain ⟨a2, s2⟩ := ih _ _ a1
    exact ⟨a2, s2.trans s1⟩

theorem setupRequired_aggView (g g' : Globals) (env : String) (discord : Session)
    (api : SnapshotApi) (h : aggView g = aggView g') :
    aggView (setupRequired g env discord api) = aggView (setupRequired g' env discord api) ∧
    scriptView (setupRequired g env discord api) = scriptView g := by
  unfold setupRequired
  have h' := h
  simp only [aggView, Prod.mk.injEq] at h'
  obtain ⟨h1, h2, h3, h4, h5, h6, h7, h8⟩ := h'
  have hl : aggView (loadIdsToTrack g env) = aggView (loadIdsToTrack g' env) := by
    simp [aggView, loadIdsToTrack, h1, h2, h3, h4, h5, h6, h7, h8]
  obtain ⟨a, s⟩ := stowStatuses_aggView discord api _ _ hl
  exact ⟨a, s⟩

theorem mainStartScripts_aggView (g : Globals) (clk : TickClock) :
    aggView (mainStartScripts g clk).1 = aggView g := by
  unfold mainStartScripts
  split
  · rfl
  · split <;> rfl

theorem dispatch_cases (g : Globals) (clk : TickClock) (waited : Bool) :
    (dispatch g clk waited = startOnlineScript g clk waited ∧ g.anyOnline = true ∧
      g.onlineScriptRan = false) ∨
    (dispatch g clk waited = startOfflineScript g clk waited ∧ g.anyOnline = false ∧
      g.offlineScriptRan = false) ∨
    (dispatch g clk waited = (g, []) ∧
      ((g.anyOnline = true ∧ g.onlineScriptRan = true) ∨
       (g.anyOnline = false ∧ g.offlineScriptRan = true))) := by
  unfold dispatch
  cases h1 : g.anyOnline <;> cases h2 : g.onlineScriptRan <;> cases h3 : g.offlineScriptRan <;>
    simp

/-! ## Start-up -/

theorem mainBoot_ok (sys : BootEnv) (g : Globals) (h : (mainBoot sys g).fatal = none) :
    (∃ u, parseFlags sys.stat g = .ok u) ∧ sys.dotenvErr = false ∧
    ((mainConfig sys g).voiceChannelId == "" && (mainConfig sys g).requireVc) = false ∧
    (sys.DISCORD_BOT_TOKEN == "") = false ∧ sys.newErr = false ∧ sys.openErr = false ∧
    (mainBoot sys g).globals =
      setupRequired (mainStartScripts (mainConfig sys g) sys.startClk).1
        sys.USERS_IDS_TO_TRACK sys.discord sys.api ∧
    (mainBoot sys g).trace = (mainStartScripts (mainConfig sys g) sys.startClk).2 := by
  cases hp : parseFlags sys.stat g with
  | error msg => simp [mainBoot, hp] at h
  | ok u =>
    unfold mainBoot at h ⊢
    rw [hp] at h ⊢
    dsimp only at h ⊢
    split_ifs at h ⊢
    simp_all

theorem mainBoot_of (sys : BootEnv) (g : Globals) (u : Unit)
    (h1 : parseFlags sys.stat g = .ok u) (h2 : sys.dotenvErr = false)
    (h3 : ((mainConfig sys g).voiceChannelId == "" && (mainConfig sys g).requireVc) = false)
    (h4 : (sys.DISCORD_BOT_TOKEN == "") = false) (h5 : sys.newErr = false)
    (h6 : sys.openErr = false) :
    (mainBoot sys g).fatal = none ∧
    (mainBoot sys g).globals =
      setupRequired (mainStartScripts (mainConfig sys g) sys.startClk).1
        sys.USERS_IDS_TO_TRACK sys.discord sys.api := by
  unfold mainBoot
  rw [h1]
  dsimp only
  rw [h2, h3, h4, h5, h6]
  exact ⟨rfl, rfl⟩

theorem parseFlags_withoutStartFlags (stat : String → StatResult) (g : Globals) (u : Unit)
    (h : parseFlags stat g = .ok u) : parseFlags stat (withoutStartFlags g) = .ok () := by
  unfold parseFlags at h ⊢
  simp only [withoutStartFlags]
  cases h1 : validateScript stat g.onlineScript with
  | error msg => simp [h1] at h
  | ok u1 =>
    cases h2 : validateScript stat g.offlineScript with
    | error msg => simp [h1, h2] at h
    | ok u2 => simp

theorem mainConfig_frame (sys : BootEnv) (g : Globals) :
    (mainConfig sys g).startOnline = g.startOnline ∧
    (mainConfig sys g).startOffline = g.startOffline ∧
    (mainConfig sys g).requireVc = g.requireVc ∧
    (mainConfig sys g).onlineScriptRan = g.onlineScriptRan ∧
    (mainConfig sys g).offlineScriptRan = g.offlineScriptRan := by
  unfold mainConfig
  cases atoi sys.COOLDOWN_BTWN_SCRIPTS_SECONDS <;> cases atoi sys.VOICE_CHANNEL <;>
    exact ⟨rfl, rfl, rfl, rfl, rfl⟩

theorem mainConfig_withoutStartFlags (sys : BootEnv) (g : Globals) :
    mainConfig sys (withoutStartFlags g) = withoutStartFlags (mainConfig sys g) := by
  unfold mainConfig
  cases atoi sys.COOLDOWN_BTWN_SCRIPTS_SECONDS <;> cases atoi sys.VOICE_CHANNEL <;> rfl

theorem dumbDetermineIter_script_matches (g : Globals) (clk : TickClock)
    (during : List Event) :
    ∀ inv ∈ (dumbDetermineIter g clk during).2,
      (inv.script = .online ↔ inv.anyOnlineAtStart = true) ∧
      (inv.script = .offline ↔ inv.anyOnlineAtStart = false) := by
  have key : ∀ (s : Globals) (c : TickClock) (waited : Bool),
      ∀ inv ∈ (dispatch s c waited).2,
        (inv.script = .online ↔ inv.anyOnlineAtStart = true) ∧
        (inv.script = .offline ↔ inv.anyOnlineAtStart = false) := by
    intro s c waited inv hinv
    rcases dispatch_cases s c waited with ⟨hd, ha, _⟩ | ⟨hd, ha, _⟩ | ⟨hd, _⟩
    · rw [hd] at hinv
      simp only [startOnlineScript, List.mem_singleton] at hinv
      subst hinv
      simp [ha]
    · rw [hd] at hinv
      simp only [startOfflineScript, List.mem_singleton] at hinv
      subst hinv
      simp [ha]
    · rw [hd] at hinv
      cases hinv
  unfold dumbDetermineIter
  split
  · simp
  · split
    · simp
    · split
      · simp
      · split
        · exact key _ _ true
        · exact key _ _ false

/-- C15, the claim as stated fails.  Started with `start-online` while the snapshot
reports the tracked "u1" offline, the program comes up with `anyOnline` false, and the
first scheduler iteration runs the offline script although no event has arrived.  Started
with `start-offline` while the snapshot reports "u1" online, it comes up with `anyOnline`
true. -/
theorem start_flag_does_not_force_aggregate_counterexample :
    exampleGlobals.startOnline = true ∧
    (mainBoot exampleBoot exampleGlobals).fatal = none ∧
    (mainBoot exampleBoot exampleGlobals).globals.anyOnline = false ∧
    ValidRun (mainBoot exampleBoot exampleGlobals).globals
      [.tick ⟨exampleAt 10, exampleAt 10, exampleAt 10, exampleAt 31, exampleAt 32, false⟩
        []] ∧
    (run (mainBoot exampleBoot exampleGlobals).globals
      [.tick ⟨exampleAt 10, exampleAt 10, exampleAt 10, exampleAt 31, exampleAt 32, false⟩
        []]).2.map (fun inv => inv.script) = [.offline] ∧
    (mainBoot exampleBootOnline
      { exampleGlobals with startOnline := false, startOffline := true }).fatal = none ∧
    (mainBoot exampleBootOnline
      { exampleGlobals with startOnline := false, startOffline := true }).globals.anyOnline
      = true := by
  decide

theorem dispatch_scripts (g : Globals) (clk : TickClock) (waited : Bool) :
    (dispatch g clk waited).2.map (fun inv => inv.script) =
      if (g.anyOnline && !g.onlineScriptRan) = true then [.online]
      else if (!g.anyOnline && !g.offlineScriptRan) = true then [.offline]
      else [] := by
  unfold dispatch
  cases h1 : g.anyOnline <;> cases h2 : g.onlineScriptRan <;> cases h3 : g.offlineScriptRan <;>
    simp [startOnlineScript, startOfflineScript]

theorem dumbDetermineIter_scripts (s : Globals) (clk : TickClock) (during : List Event)
    (atDispatch : Globals)
    (hat : atDispatch = if needToRelock s clk = true then during.foldl handle s else s)
    (hevent : s.recievedAnyPresenceChange = true)
    (hdebounce : DEBOUNCE_PERIOD ≤ since clk.debounceNow s.anyOnlineLastChange) :
    (dumbDetermineIter s clk during).2.map (fun inv => inv.script) =
      if ((s.anyOnline && s.onlineScriptRan) || (!s.anyOnline && s.offlineScriptRan)) = true
      then []
      else if (atDispatch.anyOnline && !s.onlineScriptRan) = true then [.online]
      else if (!atDispatch.anyOnline && !s.offlineScriptRan) = true then [.offline]
      else [] := by
  have hflags : atDispatch.onlineScriptRan = s.onlineScriptRan ∧
      atDispatch.offlineScriptRan = s.offlineScriptRan := by
    rw [hat]
    split
    · obtain ⟨f1, f2, _, _⟩ := foldl_handle_script during s
      exact ⟨f1, f2⟩
    · exact ⟨rfl, rfl⟩
  have h1 : (!s.recievedAnyPresenceChange) = false := by simp [hevent]
  have h2 : ¬ since clk.debounceNow s.anyOnlineLastChange < DEBOUNCE_PERIOD :=
    not_lt.2 hdebounce
  unfold dumbDetermineIter
  simp only [h1, h2, Bool.false_eq_true, if_false]
  split
  · rfl
  · split
    · rename_i hr
      rw [if_pos hr] at hat
      rw [← hat, dispatch_scripts, hflags.1, hflags.2]
    · rename_i hr
      rw [if_neg hr] at hat
      rw [← hat, dispatch_scripts, hflags.1, hflags.2]

/-- C15 as amended: when `main` comes up without a fatal error, `start-online` has run the
online script and left `onlineScriptRan` true and `offlineScriptRan` false, and
`start-offline` (without `start-online`) the reverse, whatever the snapshot holds.  The
aggregate is not forced: `anyOnline`, its stamp, the event flag and all the handlers work
on are after start-up what they are when the same start is made with both flags cleared.
From then on, through any events and as long as the start-up script is the last script
run, a scheduler iteration that passes the no-event and debounce guards runs nothing while
the aggregate agrees with the start-up script, and runs the opposite script, once, exactly
when the aggregate is the opposite both at the guards and at the dispatch. -/
theorem start_flag_runs_script_only (sys : BootEnv) (g : Globals)
    (hok : (mainBoot sys g).fatal = none) :
    (g.startOnline = true →
      (mainBoot sys g).globals.onlineScriptRan = true ∧
      (mainBoot sys g).globals.offlineScriptRan = false ∧
      (mainBoot sys g).trace.map (fun inv => inv.script) = [.online]) ∧
    (g.startOnline = false → g.startOffline = true →
      (mainBoot sys g).globals.onlineScriptRan = false ∧
      (mainBoot sys g).globals.offlineScriptRan = true ∧
      (mainBoot sys g).trace.map (fun inv => inv.script) = [.offline]) ∧
    ((mainBoot sys (withoutStartFlags g)).fatal = none ∧
      (mainBoot sys (withoutStartFlags g)).trace = [] ∧
      aggView (mainBoot sys g).globals = aggView (mainBoot sys (withoutStartFlags g)).globals) ∧
    (∀ (events : List Event) (clk : TickClock) (during : List Event)
        (s atDispatch : Globals),
      s = events.foldl handle (mainBoot sys g).globals →
      atDispatch = (if needToRelock s clk = true then during.foldl handle s else s) →
      s.recievedAnyPresenceChange = true →
      DEBOUNCE_PERIOD ≤ since clk.debounceNow s.anyOnlineLastChange →
      (g.startOnline = true →
        (dumbDetermineIter s clk during).2.map (fun inv => inv.script) =
          if (s.anyOnline || atDispatch.anyOnline) = true then [] else [.offline]) ∧
      (g.startOnline = false → g.startOffline = true →
        (dumbDetermineIter s clk during).2.map (fun inv => inv.script) =
          if (s.anyOnline && atDispatch.anyOnline) = true then [.online] else [])) := by
  obtain ⟨⟨u, hp⟩, h2, h3, h4, h5, h6, hg, ht⟩ := mainBoot_ok sys g hok
  obtain ⟨c1, c2, c3, _, _⟩ := mainConfig_frame sys g
  have hsv := (setupRequired_aggView (mainStartScripts (mainConfig sys g) sys.startClk).1
    (mainStartScripts (mainConfig sys g) sys.startClk).1 sys.USERS_IDS_TO_TRACK sys.discord
    sys.api rfl).2
  simp only [scriptView, Prod.mk.injEq] at hsv
  obtain ⟨s1, s2, _, _⟩ := hsv
  have hboot1 : g.startOnline = true →
      (mainBoot sys g).globals.onlineScriptRan = true ∧
      (mainBoot sys g).globals.offlineScriptRan = false ∧
      (mainBoot sys g).trace.map (fun inv => inv.script) = [.online] := by
    intro hon
    rw [hg, ht, s1, s2]
    simp [mainStartScripts, c1, hon, startOnlineScript, runOnlineScript]
  have hboot2 : g.startOnline = false → g.startOffline = true →
      (mainBoot sys g).globals.onlineScriptRan = false ∧
      (mainBoot sys g).globals.offlineScriptRan = true ∧
      (mainBoot sys g).trace.map (fun inv => inv.script) = [.offline] := by
    intro hon hoff
    rw [hg, ht, s1, s2]
    simp [mainStartScripts, c1, c2, hon, hoff, startOfflineScript, runOfflineScript]
  refine ⟨hboot1, hboot2, ?_, ?_⟩
  · have hp' := parseFlags_withoutStartFlags sys.stat g u hp
    have hc := mainConfig_withoutStartFlags sys g
    have h3' : ((mainConfig sys (withoutStartFlags g)).voiceChannelId == "" &&
        (mainConfig sys (withoutStartFlags g)).requireVc) = false := by
      rw [hc]
      exact h3
    obtain ⟨f, hg'⟩ := mainBoot_of sys (withoutStartFlags g) () hp' h2 h3' h4 h5 h6
    obtain ⟨_, _, _, _, _, _, _, ht'⟩ := mainBoot_ok sys (withoutStartFlags g) f
    refine ⟨f, ?_, ?_⟩
    · rw [ht', hc]
      simp [mainStartScripts, withoutStartFlags]
    · rw [hg, hg', hc]
      apply (setupRequired_aggView _ _ _ _ _ _).1
      rw [mainStartScripts_aggView, mainStartScripts_aggView]
      rfl
  · intro events clk during s atDispatch hs hat hevent hdebounce
    have hscr := dumbDetermineIter_scripts s clk during atDispatch hat hevent hdebounce
    obtain ⟨f1, f2, _, _⟩ := foldl_handle_script events (mainBoot sys g).globals
    rw [← hs] at f1 f2
    constructor
    · intro hon
      obtain ⟨b1, b2, _⟩ := hboot1 hon
      rw [hscr, f1, f2, b1, b2]
      cases s.anyOnline <;> cases atDispatch.anyOnline <;> simp
    · intro hon hoff
      obtain ⟨b1, b2, _⟩ := hboot2 hon hoff
      rw [hscr, f1, f2, b1, b2]
      cases s.anyOnline <;> cases atDispatch.anyOnline <;> simp

/-- Witness for C15 as amended: the worked start with `start-online` has run the online
script and comes up with the aggregate of the same start without the flag, which is false;
the scheduler iteration at 10 s, with no event in between, runs the offline script.  The
same start with `start-offline` and "u1" reported "online" comes up with a true aggregate,
and that iteration runs the online script. -/
theorem start_flag_runs_script_only_witness :
    (mainBoot exampleBoot exampleGlobals).fatal = none ∧
    (mainBoot exampleBoot exampleGlobals).globals.onlineScriptRan = true ∧
    (mainBoot exampleBoot exampleGlobals).globals.anyOnline =
      (mainBoot exampleBoot (withoutStartFlags exampleGlobals)).globals.anyOnline ∧
    (dumbDetermineIter (mainBoot exampleBoot exampleGlobals).globals
      ⟨exampleAt 10, exampleAt 10, exampleAt 10, exampleAt 31, exampleAt 32, false⟩
      []).2.map (fun inv => inv.script) = [.offline] ∧
    (dumbDetermineIter
      (mainBoot exampleBootOnline
        { exampleGlobals with startOnline := false, startOffline := true }).globals
      ⟨exampleAt 10, exampleAt 10, exampleAt 10, exampleAt 31, exampleAt 32, false⟩
      []).2.map (fun inv => inv.script) = [.online] :=
  ⟨by decide,
    ((start_flag_runs_script_only exampleBoot exampleGlobals (by decide)).1 rfl).1,
    by decide,
    (((start_flag_runs_script_only exampleBoot exampleGlobals (by decide)).2.2.2 []
      ⟨exampleAt 10, exampleAt 10, exampleAt 10, exampleAt 31, exampleAt 32, false⟩ []
      (mainBoot exampleBoot exampleGlobals).globals
      (mainBoot exampleBoot exampleGlobals).globals rfl (by decide) (by decide)
      (by decide)).1 rfl).trans (by decide),
    by decide⟩

/-! ## Conflicting start flags -/

/-- C16: whenever `start-online` and `start-offline` are both set, `parseFlags` ends in a
panic, whatever the scripts and the rest of the surroundings are; `main` ends with that
panic before any script has run, before any handler is registered and with every global
as it was. -/
theorem conflicting_start_flags_fatal (sys : BootEnv) (g : Globals)
    (hon : g.startOnline = true) (hoff : g.startOffline = true) :
    (∃ msg, parseFlags sys.stat g = .error msg ∧ (mainBoot sys g).fatal = some msg) ∧
    (mainBoot sys g).trace = [] ∧
    (mainBoot sys g).globals = g ∧
    (mainBoot sys g).handlers = none := by
  have hp : ∃ msg, parseFlags sys.stat g = .error msg := by
    unfold parseFlags
    cases validateScript sys.stat g.onlineScript with
    | error msg => exact ⟨msg, rfl⟩
    | ok u1 =>
      cases validateScript sys.stat g.offlineScript with
      | error msg => exact ⟨msg, rfl⟩
      | ok u2 => simp [hon, hoff]
  obtain ⟨msg, hmsg⟩ := hp
  have hb : mainBoot sys g = ⟨some msg, g, [], none⟩ := by
    unfold mainBoot
    rw [hmsg]
  rw [hb]
  exact ⟨⟨msg, hmsg, rfl⟩, rfl, rfl, rfl⟩

/-- Witness for C16: the worked start with both flags set ends in the panic of the flag
check and has run no script. -/
theorem conflicting_start_flags_fatal_witness :
    (mainBoot exampleBoot { exampleGlobals with startOffline := true }).fatal =
      some ("You cannot choose to start both online and offline scripts for the " ++
        "first run. Pick one.") ∧
    (mainBoot exampleBoot { exampleGlobals with startOffline := true }).trace = [] :=
  ⟨by decide,
    (conflicting_start_flags_fatal exampleBoot { exampleGlobals with startOffline := true }
      rfl rfl).2.1⟩

/-! ## Dispatch -/

/-- C17: take a scheduler iteration that passes the no-event, debounce and already-handled
guards, and let `atDispatch` be the globals when the dispatch reads them (after the events
handled during the cooldown wait, if there was one).  The iteration runs at most one
script; a script it runs is the online script exactly when `anyOnline` at dispatch is true
and the offline script exactly when it is false, and afterwards `onlineScriptRan` is that
`anyOnline` and `offlineScriptRan` its negation.  Without a cooldown wait the iteration
runs exactly one script. -/
theorem dispatch_matches_aggregate (g : Globals) (clk : TickClock) (during : List Event)
    (atDispatch : Globals)
    (hat : atDispatch = if needToRelock g clk = true then during.foldl handle g else g)
    (hevent : g.recievedAnyPresenceChange = true)
    (hdebounce : DEBOUNCE_PERIOD ≤ since clk.debounceNow g.anyOnlineLastChange)
    (hhandled : ¬((g.anyOnline = true ∧ g.onlineScriptRan = true) ∨
                  (g.anyOnline = false ∧ g.offlineScriptRan = true))) :
    (dumbDetermineIter g clk during).2.length ≤ 1 ∧
    (∀ inv ∈ (dumbDetermineIter g clk during).2,
      inv.anyOnlineAtStart = atDispatch.anyOnline ∧
      (inv.script = .online ↔ atDispatch.anyOnline = true) ∧
      (inv.script = .offline ↔ atDispatch.anyOnline = false) ∧
      (dumbDetermineIter g clk during).1.onlineScriptRan = atDispatch.anyOnline ∧
      (dumbDetermineIter g clk during).1.offlineScriptRan = !atDispatch.anyOnline) ∧
    (dumbDetermineIter g clk during).1.anyOnline = atDispatch.anyOnline ∧
    (needToRelock g clk = false →
      (dumbDetermineIter g clk during).2.length = 1 ∧
      (dumbDetermineIter g clk during).1.onlineScriptRan = g.anyOnline ∧
      (dumbDetermineIter g clk during).1.offlineScriptRan = !g.anyOnline) := by
  have hiter : ∃ clk', dumbDetermineIter g clk during =
      dispatch atDispatch clk' (needToRelock g clk) := by
    refine ⟨if needToRelock g clk = true then afterSleep g clk else clk, ?_⟩
    unfold dumbDetermineIter
    have h1 : (!g.recievedAnyPresenceChange) = false := by simp [hevent]
    have h2 : ¬ since clk.debounceNow g.anyOnlineLastChange < DEBOUNCE_PERIOD :=
      not_lt.2 hdebounce
    have h3 : ((g.anyOnline && g.onlineScriptRan) || (!g.anyOnline && g.offlineScriptRan)) =
        false := by
      cases ha : g.anyOnline <;> cases hb : g.onlineScriptRan <;>
        cases hc : g.offlineScriptRan <;> simp_all
    simp only [h1, h2, h3, Bool.false_eq_true, if_false]
    rw [hat]
    cases hr : needToRelock g clk <;> simp
  obtain ⟨clk', hiter⟩ := hiter
  rw [hiter]
  have key : ∀ waited : Bool,
      (dispatch atDispatch clk' waited).2.length ≤ 1 ∧
      (∀ inv ∈ (dispatch atDispatch clk' waited).2,
        inv.anyOnlineAtStart = atDispatch.anyOnline ∧
        (inv.script = .online ↔ atDispatch.anyOnline = true) ∧
        (inv.script = .offline ↔ atDispatch.anyOnline = false) ∧
        (dispatch atDispatch clk' waited).1.onlineScriptRan = atDispatch.anyOnline ∧
        (dispatch atDispatch clk' waited).1.offlineScriptRan = !atDispatch.anyOnline) ∧
      (dispatch atDispatch clk' waited).1.anyOnline = atDispatch.anyOnline := by
    intro waited
    rcases dispatch_cases atDispatch clk' waited with ⟨hd, ha, _⟩ | ⟨hd, ha, _⟩ | ⟨hd, _⟩
    · rw [hd]
      refine ⟨by simp [startOnlineScript], ?_, rfl⟩
      intro inv hinv
      simp only [startOnlineScript, List.mem_singleton] at hinv
      subst hinv
      simp [startOnlineScript, runOnlineScript, ha]
    · rw [hd]
      refine ⟨by simp [startOfflineScript], ?_, rfl⟩
      intro inv hinv
      simp only [startOfflineScript, List.mem_singleton] at hinv
      subst hinv
      simp [startOfflineScript, runOfflineScript, ha]
    · rw [hd]
      exact ⟨by simp, by simp, rfl⟩
  refine ⟨(key _).1, (key _).2.1, (key _).2.2, ?_⟩
  intro hr
  have hg : atDispatch = g := by
    rw [hat, hr]
    simp
  rw [hg]
  rcases dispatch_cases g clk' (needToRelock g clk) with ⟨hd, ha, _⟩ | ⟨hd, ha, _⟩ | ⟨_, hx⟩
  · rw [hd]
    simp [startOnlineScript, runOnlineScript, ha]
  · rw [hd]
    simp [startOfflineScript, runOfflineScript, ha]
  · exact absurd hx hhandled

/-- Witness for C17: "u1" went offline at 70 s after the online script had run; the
iteration at 100 s needs no wait and runs the offline script, and nothing else. -/
theorem dispatch_matches_aggregate_witness :
    needToRelock
      { exampleGlobals with anyOnlineLastChange := exampleAt 70,
                            recievedAnyPresenceChange := true, onlineScriptRan := true,
                            lastScriptRun := exampleAt 63 }
      ⟨exampleAt 100, exampleAt 100, exampleAt 100, exampleAt 100, exampleAt 101, false⟩
      = false ∧
    (dumbDetermineIter
      { exampleGlobals with anyOnlineLastChange := exampleAt 70,
                            recievedAnyPresenceChange := true, onlineScriptRan := true,
                            lastScriptRun := exampleAt 63 }
      ⟨exampleAt 100, exampleAt 100, exampleAt 100, exampleAt 100, exampleAt 101, false⟩
      []).2.map (fun inv => inv.script) = [.offline] ∧
    (dumbDetermineIter
      { exampleGlobals with anyOnlineLastChange := exampleAt 70,
                            recievedAnyPresenceChange := true, onlineScriptRan := true,
                            lastScriptRun := exampleAt 63 }
      ⟨exampleAt 100, exampleAt 100, exampleAt 100, exampleAt 100, exampleAt 101, false⟩
      []).2.length = 1 :=
  ⟨by decide, by decide,
    ((dispatch_matches_aggregate _ _ [] _ rfl (by decide) (by decide) (by decide)).2.2.2
      (by decide)).1⟩

/-! ## Voice events about other channels -/

theorem updateVoiceChannelId_eq_effectiveChannel (vs : VoiceStateUpdate) :
    updateVoiceChannelId vs = effectiveChannel vs := by
  unfold updateVoiceChannelId effectiveChannel
  by_cases hc : vs.ChannelID = ""
  · cases vs.BeforeUpdate with
    | none => simp [hc]
    | some before =>
      by_cases hb : before.ChannelID = ""
      · simp [hc, hb]
      · simp [hc, hb]
  · cases vs.BeforeUpdate <;> simp [hc]

theorem haveAnyTracked_iff (idsToTrack : List String) (members : List Member) :
    haveAnyTracked idsToTrack members = true ↔
      ∃ member ∈ members, member.UserID ∈ idsToTrack := by
  induction members with
  | nil => simp [haveAnyTracked]
  | cons member rest ih =>
    unfold haveAnyTracked
    by_cases h : member.UserID ∈ idsToTrack
    · simp [h]
    · simp [h, ih]

theorem mem_foldl_voiceStates (discord : Session) (guildID channelID : String)
    (voiceStates : List VoiceState) (acc : List Member) (member : Member) :
    member ∈ voiceStates.foldl (fun membersInChannel voiceState =>
        if voiceState.ChannelID == channelID then
          match stateMember discord guildID voiceState.UserID with
          | some member => membersInChannel ++ [member]
          | none => membersInChannel
        else membersInChannel) acc ↔
      member ∈ acc ∨ ∃ voiceState ∈ voiceStates, voiceState.ChannelID = channelID ∧
        stateMember discord guildID voiceState.UserID = some member := by
  induction voiceStates generalizing acc with
  | nil => simp
  | cons v rest ih =>
    simp only [List.foldl_cons, ih, List.mem_cons, exists_eq_or_imp]
    by_cases hc : v.ChannelID = channelID
    · cases hm : stateMember discord guildID v.UserID with
      | none => simp [hc]
      | some m =>
        simp only [hc, beq_self_eq_true, if_true, List.mem_append, List.mem_singleton,
          true_and, Option.some.injEq]
        constructor
        · rintro ((h | h) | h)
          · exact Or.inl h
          · exact Or.inr (Or.inl h.symm)
          · exact Or.inr (Or.inr h)
        · rintro (h | h | h)
          · exact Or.inl (Or.inl h)
          · exact Or.inl (Or.inr h.symm)
          · exact Or.inr h
    · simp [hc]

theorem mem_getMembersInVoiceChannel (discord : Session) (guildID channelID : String)
    (member : Member) :
    member ∈ getMembersInVoiceChannel discord guildID channelID ↔
      ∃ guild, stateGuild discord guildID = some guild ∧
        ∃ voiceState ∈ guild.VoiceStates, voiceState.ChannelID = channelID ∧
          stateMember discord guildID voiceState.UserID = some member := by
  unfold getMembersInVoiceChannel
  cases hg : stateGuild discord guildID with
  | none => simp
  | some guild =>
    simp only [mem_foldl_voiceStates, List.not_mem_nil, false_or, Option.some.injEq,
      exists_eq_left']

/-- C19: the code's choice of channel is the effective channel of the event (the new
channel if non-empty, otherwise the previous one if any, otherwise empty).  A voice event
whose effective channel differs from `voiceChannelId` leaves every global as it was, in
particular `anyInVoiceChannel`, `anyOnline`, `anyOnlineLastChange`,
`recievedAnyPresenceChange` and the presence store.  A voice event whose effective channel
is `voiceChannelId` sets `anyInVoiceChannel` to true exactly when some member of the
roster of that channel (the cached members of the users with a voice state in it) is in
`idsToTrack`, whatever the flag was before, and leaves the presence store alone. -/
theorem voice_event_other_channel (g : Globals) (discord : Session) (vs : VoiceStateUpdate)
    (now : Int) :
    updateVoiceChannelId vs = effectiveChannel vs ∧
    (effectiveChannel vs ≠ g.voiceChannelId →
      (voiceChannelUpdate g discord vs now).anyInVoiceChannel = g.anyInVoiceChannel ∧
      (voiceChannelUpdate g discord vs now).anyOnline = g.anyOnline ∧
      (voiceChannelUpdate g discord vs now).anyOnlineLastChange = g.anyOnlineLastChange ∧
      (voiceChannelUpdate g discord vs now).recievedAnyPresenceChange =
        g.recievedAnyPresenceChange ∧
      (voiceChannelUpdate g discord vs now).lastPresenceState = g.lastPresenceState ∧
      voiceChannelUpdate g discord vs now = g) ∧
    (effectiveChannel vs = g.voiceChannelId →
      ((voiceChannelUpdate g discord vs now).anyInVoiceChannel = true ↔
        ∃ member ∈ getMembersInVoiceChannel discord vs.GuildID g.voiceChannelId,
          member.UserID ∈ g.idsToTrack) ∧
      (∀ previous : Bool,
        (voiceChannelUpdate { g with anyInVoiceChannel := previous } discord vs
          now).anyInVoiceChannel = (voiceChannelUpdate g discord vs now).anyInVoiceChannel) ∧
      (voiceChannelUpdate g discord vs now).lastPresenceState = g.lastPresenceState) ∧
    (∀ (channelID : String) (member : Member),
      member ∈ getMembersInVoiceChannel discord vs.GuildID channelID ↔
        ∃ guild, stateGuild discord vs.GuildID = some guild ∧
          ∃ voiceState ∈ guild.VoiceStates, voiceState.ChannelID = channelID ∧
            stateMember discord vs.GuildID voiceState.UserID = some member) := by
  have heff := updateVoiceChannelId_eq_effectiveChannel vs
  refine ⟨heff, ?_, ?_, fun channelID member =>
    mem_getMembersInVoiceChannel discord vs.GuildID channelID member⟩
  · intro hne
    have hbad : g.voiceChannelId ≠ updateVoiceChannelId vs := by
      rw [heff]
      exact fun h => hne h.symm
    rw [voiceChannelUpdate_of_bad g discord vs now hbad]
    exact ⟨rfl, rfl, rfl, rfl, rfl, rfl⟩
  · intro heq
    have hgood : g.voiceChannelId = updateVoiceChannelId vs := by
      rw [heff]
      exact heq.symm
    have hval : ∀ s : Globals, s.voiceChannelId = g.voiceChannelId →
        s.idsToTrack = g.idsToTrack →
        (voiceChannelUpdate s discord vs now).anyInVoiceChannel =
          haveAnyTracked g.idsToTrack
            (getMembersInVoiceChannel discord vs.GuildID g.voiceChannelId) ∧
        (voiceChannelUpdate s discord vs now).lastPresenceState = s.lastPresenceState := by
      intro s hs1 hs2
      rw [voiceChannelUpdate_of_good s discord vs now (hs1.trans hgood)]
      simp only [markVoiceChannelPresenceChange]
      constructor
      · rw [(runAnyOnlineCheck_frame _ now).2.1, hs2, ← hgood]
      · rw [(runAnyOnlineCheck_frame _ now).2.2.1]
    refine ⟨?_, ?_, (hval g rfl rfl).2⟩
    · rw [(hval g rfl rfl).1, haveAnyTracked_iff]
    · intro previous
      rw [(hval g rfl rfl).1, (hval { g with anyInVoiceChannel := previous } rfl rfl).1]

/-- Witness for C19: with channel "123" configured, the move of "u1" to channel "456" is a
voice event about another channel and changes nothing; the disconnect of "u1" from "123"
is about the configured channel and clears the flag. -/
theorem voice_event_other_channel_witness :
    effectiveChannel moveEvent = "456" ∧
    voiceChannelUpdate (voiceChannelUpdate voiceGlobals rosterJoined joinEvent (exampleAt 2))
      rosterMoved moveEvent (exampleAt 9) =
      voiceChannelUpdate voiceGlobals rosterJoined joinEvent (exampleAt 2) ∧
    effectiveChannel disconnectEvent = "123" ∧
    (voiceChannelUpdate (voiceChannelUpdate voiceGlobals rosterJoined joinEvent (exampleAt 2))
      rosterLeft disconnectEvent (exampleAt 9)).anyInVoiceChannel = false :=
  ⟨by decide,
    ((voice_event_other_channel
      (voiceChannelUpdate voiceGlobals rosterJoined joinEvent (exampleAt 2)) rosterMoved
      moveEvent (exampleAt 9)).2.1 (by decide)).2.2.2.2.2,
    by decide, by decide⟩

end ShBot
